import Mathlib

/-!
Verification development for the Clawdbot subagent orchestration core.

Shallow embedding of:
- `src/src/agents/subagent-spawn.ts` (spawn engine: admission, model and
  thinking resolution, gateway RPC sequence, registry registration);
- `src/unnamed/part_005` (command surface `commands-subagents.ts`:
  target resolution, list ordering, log action, send and steer paths).

Collaborators that are referenced by the sources but whose code is not in
the repository snapshot (subagent-registry, subagent-depth, thinking
normalization, model defaults, session-key helpers, formatting utilities)
are modelled from the specification; each such definition carries a doc
comment starting with "Modelled from the spec:".

Gateway RPC is modelled as a pure oracle `GatewayCall → RpcOutcome`; the
embedding threads the list of calls issued and the registry mutations, so
"no side effects" claims become statements about empty call traces and
absent registrations.
-/

namespace Clawdbot

/-! ## String primitives

The JS string operations the sources use (trim, toLowerCase, split,
includes, startsWith, parseInt, slice) are embedded as character-list
functions so that every definition evaluates inside the kernel. -/

/-- JS `toLowerCase` (ASCII, which is all the sources compare). -/
def strLower (s : String) : String :=
  String.mk (s.data.map Char.toLower)

/-- Drop whitespace from both ends of a character list. -/
def trimCharList (l : List Char) : List Char :=
  ((l.dropWhile Char.isWhitespace).reverse.dropWhile Char.isWhitespace).reverse

/-- JS `trim`. -/
def strTrim (s : String) : String :=
  String.mk (trimCharList s.data)

/-- Split a character list at characters satisfying the predicate. -/
def splitByAux (p : Char → Bool) : List Char → List Char → List (List Char)
  | [], acc => [acc.reverse]
  | c :: rest, acc =>
    if p c then acc.reverse :: splitByAux p rest [] else splitByAux p rest (c :: acc)

/-- JS `split` with a predicate separator. -/
def strSplitBy (p : Char → Bool) (s : String) : List String :=
  (splitByAux p s.data []).map String.mk

/-- JS `split` with a one-character separator. -/
def strSplitOnChar (sep : Char) (s : String) : List String :=
  strSplitBy (fun c => c == sep) s

/-- JS `includes` with a one-character needle. -/
def strContainsChar (s : String) (c : Char) : Bool :=
  s.data.contains c

/-- Whether the first list is a prefix of the second. -/
def listPrefixEq : List Char → List Char → Bool
  | [], _ => true
  | _ :: _, [] => false
  | a :: as, b :: bs => a == b && listPrefixEq as bs

/-- JS `startsWith`: the first string is a prefix of the second. -/
def strPrefixEq (p s : String) : Bool :=
  listPrefixEq p.data s.data

/-- Whether the pattern occurs as a contiguous sublist. -/
def listInfixEq (pat : List Char) : List Char → Bool
  | [] => pat.isEmpty
  | c :: rest => listPrefixEq pat (c :: rest) || listInfixEq pat rest

/-- JS `includes`: the second string occurs inside the first. -/
def strContainsSubstr (s pat : String) : Bool :=
  listInfixEq pat.data s.data

/-- JS `/^\d+$/` test plus `parseInt`, combined into one parse: defined
exactly on non-empty all-digit strings. -/
def strToNatQ (s : String) : Option Nat :=
  if s.data ≠ [] ∧ s.data.all Char.isDigit then
    some (s.data.foldl (fun n c => n * 10 + (c.toNat - 48)) 0)
  else none

/-- JS `slice(0, n)`. -/
def strTake (s : String) (n : Nat) : String :=
  String.mk (s.data.take n)

/-- JS `length` (code points; the sources only measure ASCII). -/
def strLength (s : String) : Nat :=
  s.data.length

/-- A configured model selection value: config values may be a plain string
or an object with a `primary` field (see `normalizeModelSelection` in
`subagent-spawn.ts`). -/
inductive ModelSetting
  | str (value : String)
  | obj (primary : Option String)
deriving DecidableEq, Repr

/-- Parameters of `spawnSubagentDirect` (`SpawnSubagentParams` in
`subagent-spawn.ts`). `runTimeoutSeconds` is an integer model of the JS
number (finiteness is encoded by `some`). -/
structure SpawnParams where
  task : String
  label : Option String := none
  agentId : Option String := none
  model : Option String := none
  thinking : Option String := none
  runTimeoutSeconds : Option Int := none
  cleanup : Option String := none
deriving DecidableEq, Repr

/-- Context of `spawnSubagentDirect` (`SpawnSubagentContext`). Delivery
routing fields that the claims do not touch are elided. -/
structure SpawnCtx where
  agentSessionKey : Option String := none
  requesterAgentIdOverride : Option String := none
deriving DecidableEq, Repr

/-- Per-agent `subagents` configuration block. -/
structure AgentSubagentsCfg where
  model : Option ModelSetting := none
  thinking : Option String := none
  allowAgents : Option (List String) := none
deriving DecidableEq, Repr

/-- One entry of the per-agent configuration table. -/
structure AgentCfgEntry where
  id : String
  subagents : Option AgentSubagentsCfg := none
deriving DecidableEq, Repr

/-- The slice of the loaded configuration that the subagent core reads.
`runtimeDefault` models `resolveDefaultModelForAgent` (provider, model)
for a given agent id. -/
structure Cfg where
  maxSpawnDepth : Option Nat := none
  maxChildrenPerAgent : Option Nat := none
  defaultsSubagentsModel : Option ModelSetting := none
  defaultsSubagentsThinking : Option String := none
  defaultsModelPrimary : Option ModelSetting := none
  agents : List AgentCfgEntry := []
  mainKey : String := "agent:main:main"
  aliasKey : String := "main"
  runtimeDefault : String → String × String := fun _ => ("anthropic", "claude")

/-- One subagent run record (`SubagentRunRecord`, §3 of the spec). -/
structure RunRecord where
  runId : String
  childSessionKey : String
  requesterSessionKey : String
  task : String
  label : Option String := none
  model : Option String := none
  cleanup : String := "keep"
  runTimeoutSeconds : Nat := 0
  createdAt : Nat := 0
  startedAt : Option Nat := none
  endedAt : Option Nat := none
  outcomeStatus : Option String := none
  steerRestart : Bool := false
deriving DecidableEq, Repr

/-- The in-memory registry table: a list of run records. -/
abbrev Registry := List RunRecord

inductive SpawnStatus
  | accepted
  | forbidden
  | error
deriving DecidableEq, Repr

/-- Result shape of `spawnSubagentDirect` (`SpawnSubagentResult`). -/
structure SpawnResult where
  status : SpawnStatus
  childSessionKey : Option String := none
  runId : Option String := none
  modelApplied : Option Bool := none
  warning : Option String := none
  error : Option String := none
deriving DecidableEq, Repr

/-- Gateway RPC calls issued by the subagent core (§6 of the spec).
Delivery-context pass-through fields that no claim touches are elided. -/
inductive GatewayCall
  | patchDepth (key : String) (spawnDepth : Nat)
  | patchModel (key : String) (model : String)
  | patchThinking (key : String) (thinkingLevel : Option String)
  | agentLaunch (message : String) (sessionKey : String) (sessionId : Option String)
      (idempotencyKey : String) (deliver : Bool) (lane : String) (timeout : Nat)
      (label : Option String) (spawnedBy : Option String) (thinking : Option String)
  | agentWait (runId : String) (timeoutMs : Nat)
  | chatHistory (sessionKey : String) (limit : Nat)
deriving DecidableEq, Repr

/-- A chat message as the command surface sees it. `isTool` marks
tool-call and tool-result messages. -/
structure ChatMessage where
  role : String
  text : String
  isTool : Bool := false
deriving DecidableEq, Repr

/-- Outcome of one gateway RPC call: a thrown error, or a typed payload.
Payload constructors carry only the fields the embedded code reads. -/
inductive RpcOutcome
  | err (message : String)
  | okUnit
  | okRun (runId : Option String)
  | okWait (status : Option String) (waitError : Option String)
  | okHistory (messages : List ChatMessage)
deriving DecidableEq, Repr

/-- Registry mutation trace entries, used to state which registry
operations a handler performed and in which order. -/
inductive RegOp
  | markSteer (runId : String)
  | clearSteer (runId : String)
  | replaceAfterSteer (prevRunId nextRunId : String)
  | register (runId : String)
  | terminate (runId : String)
deriving DecidableEq, Repr

/-! ## Modelled collaborators (code not present under src/) -/

/-- Modelled from the spec: `normalizeAgentId` (routing/session-key.js is
not in the snapshot). The spec (§3) says the agentId segment is
case-normalized; we model normalization as trimming plus lowercasing. -/
def normalizeAgentId (s : String) : String :=
  strLower (strTrim s)

/-- Modelled from the spec: `parseAgentSessionKey(...)?.agentId` for keys
of the form `agent:<agentId>:<scope...>` (§3). -/
def parseAgentSessionKeyAgentId (key : String) : Option String :=
  match strSplitOnChar ':' key with
  | "agent" :: aid :: _rest => if aid = "" then none else some aid
  | _ => none

/-- Modelled from the spec: `normalizeAgentId` applied to a possibly
missing id; a missing id resolves to the default "main" agent. -/
def normalizeAgentIdOpt : Option String → String
  | some s => normalizeAgentId s
  | none => "main"

/-- Modelled from the spec: `resolveInternalSessionKey` substitutes the
configured main session key for the dedicated main alias (§3). -/
def resolveInternalSessionKey (cfg : Cfg) (key : String) : String :=
  if key == cfg.aliasKey then cfg.mainKey else key

/-- Modelled from the spec: `resolveAgentConfig(cfg, agentId)?.subagents`,
a lookup of the per-agent configuration block by normalized agent id. -/
def resolveAgentSubagentsCfg (cfg : Cfg) (agentId : String) : Option AgentSubagentsCfg :=
  match cfg.agents.find? (fun e => normalizeAgentId e.id == agentId) with
  | some e => e.subagents
  | none => none

/-- Modelled from the spec: `readStringParam(obj, "thinking")` from
tools/common.js returns the trimmed string value when present and
non-empty, otherwise undefined. -/
def readTrimmedString : Option String → Option String
  | some s => if strTrim s = "" then none else some (strTrim s)
  | none => none

/-- Modelled from the spec: the set of recognized thinking levels
(`normalizeThinkLevel` in auto-reply/thinking.js is not in the snapshot);
`"off"` is the level that maps to clearing the session value. -/
def validThinkLevels : List String :=
  ["off", "minimal", "low", "medium", "high"]

/-- Modelled from the spec: `normalizeThinkLevel` maps a raw token to a
known thinking-level enum value, or fails. -/
def normalizeThinkLevel (raw : String) : Option String :=
  if validThinkLevels.contains (strLower (strTrim raw)) then
    some (strLower (strTrim raw))
  else none

/-- Modelled from the spec: `formatThinkingLevels` renders the set of
valid levels for the validation error message. -/
def formatThinkingLevels (_provider _model : Option String) : String :=
  String.intercalate ", " validThinkLevels

/-- Modelled from the spec: `AGENT_LANE_SUBAGENT`, the dedicated
"subagent" execution lane (§4.2, glossary). -/
def laneSubagent : String := "subagent"

/-! ## Modelled registry (subagent-registry.ts is not under src/; §4.1) -/

/-- Modelled from the spec: `countActiveRunsForSession` counts non-ended
records whose requester key matches (§4.1). -/
def countActiveRunsForSession (key : String) (reg : Registry) : Nat :=
  (reg.filter (fun r => r.requesterSessionKey == key && r.endedAt.isNone)).length

/-- Modelled from the spec: `listSubagentRunsForRequester` returns all
records (active plus recently ended) for a requester (§4.1). -/
def listSubagentRunsForRequester (key : String) (reg : Registry) : List RunRecord :=
  reg.filter (fun r => r.requesterSessionKey == key)

/-- Modelled from the spec: `registerSubagentRun` inserts a new record
(§4.1). -/
def registerSubagentRun (rec : RunRecord) (reg : Registry) : Registry :=
  rec :: reg

/-- Modelled from the spec: `markSubagentRunTerminated` sets `endedAt` and
the outcome status; idempotent, so an already-ended record is left
unchanged (§4.1). -/
def markSubagentRunTerminated (runId reason : String) (now : Nat) (reg : Registry) : Registry :=
  reg.map (fun r =>
    if r.runId == runId && r.endedAt.isNone then
      { r with endedAt := some now, outcomeStatus := some reason }
    else r)

/-- Modelled from the spec: `markSubagentRunForSteerRestart` sets the
"this run is about to be replaced" flag; no-op on an unknown run (§4.1). -/
def markSubagentRunForSteerRestart (runId : String) (reg : Registry) : Registry :=
  reg.map (fun r => if r.runId == runId then { r with steerRestart := true } else r)

/-- Modelled from the spec: `clearSubagentRunSteerRestart` clears the
steer-restart flag; no-op on an unknown run (§4.1). -/
def clearSubagentRunSteerRestart (runId : String) (reg : Registry) : Registry :=
  reg.map (fun r => if r.runId == runId then { r with steerRestart := false } else r)

/-- Modelled from the spec: `replaceSubagentRunAfterSteer` atomically
retires the previous record and inserts a new one under the next run id,
inheriting requester/child/task/label fields from the fallback record,
with a fresh `startedAt` (§4.1, steer atomicity in §8). -/
def replaceSubagentRunAfterSteer (prevRunId nextRunId : String) (fallback : RunRecord)
    (runTimeoutSeconds : Nat) (now : Nat) (reg : Registry) : Registry :=
  { fallback with
      runId := nextRunId
      startedAt := some now
      endedAt := none
      outcomeStatus := none
      steerRestart := false
      runTimeoutSeconds := runTimeoutSeconds } ::
    reg.filter (fun r => r.runId != prevRunId)

/-! ## Spawn engine (translated from src/src/agents/subagent-spawn.ts) -/

/-- Translated from `splitModelRef` (subagent-spawn.ts lines 51-64):
split a model ref at the first `/` into provider and model; a missing or
empty second segment keeps the whole trimmed ref as the model. -/
def splitModelRef (ref : Option String) : Option String × Option String :=
  match ref with
  | none => (none, none)
  | some r =>
    if strTrim r = "" then (none, none)
    else
      match strSplitOnChar '/' (strTrim r) with
      | [] => (none, some (strTrim r))
      | [_single] => (none, some (strTrim r))
      | provider :: model :: _rest =>
        if model ≠ "" then (some provider, some model) else (none, some (strTrim r))

/-- Translated from `normalizeModelSelection` (subagent-spawn.ts lines
66-79): trim plain strings, read `primary` from objects, and drop empty
or whitespace-only values. -/
def normalizeModelSelection : Option ModelSetting → Option String
  | some (.str s) =>
    if strTrim s = "" then none else some (strTrim s)
  | some (.obj (some primary)) =>
    if strTrim primary ≠ "" then some (strTrim primary) else none
  | some (.obj none) => none
  | none => none

/-- The configured maximum spawn depth with its default of 1
(subagent-spawn.ts line 122). -/
def maxSpawnDepthOf (cfg : Cfg) : Nat :=
  cfg.maxSpawnDepth.getD 1

/-- The configured maximum active children with its default of 5
(subagent-spawn.ts line 130). -/
def maxChildrenOf (cfg : Cfg) : Nat :=
  cfg.maxChildrenPerAgent.getD 5

/-- Requester internal session key (subagent-spawn.ts lines 107-114):
resolve the alias when a session key is given, otherwise use the alias. -/
def requesterInternalKeyOf (cfg : Cfg) (ctx : SpawnCtx) : String :=
  match ctx.agentSessionKey with
  | some k => resolveInternalSessionKey cfg k
  | none => cfg.aliasKey

/-- Requester agent id (subagent-spawn.ts lines 139-141). -/
def requesterAgentIdOf (ctx : SpawnCtx) (requesterInternalKey : String) : String :=
  normalizeAgentIdOpt
    (ctx.requesterAgentIdOverride <|> parseAgentSessionKeyAgentId requesterInternalKey)

/-- Target agent id (subagent-spawn.ts line 142). -/
def targetAgentIdOf (p : SpawnParams) (requesterAgentId : String) : String :=
  match p.agentId with
  | some a => normalizeAgentId a
  | none => requesterAgentId

/-- The requester agent configured allowlist (subagent-spawn.ts line
144). -/
def allowAgentsOf (cfg : Cfg) (requesterAgentId : String) : List String :=
  match resolveAgentSubagentsCfg cfg requesterAgentId with
  | some sc => sc.allowAgents.getD []
  | none => []

/-- The normalized allowlist set (subagent-spawn.ts lines 147-151):
non-empty, non-wildcard entries, agent-normalized then lowercased. -/
def allowSetOf (cfg : Cfg) (requesterAgentId : String) : List String :=
  ((allowAgentsOf cfg requesterAgentId).filter
      (fun v => strTrim v ≠ "" && strTrim v ≠ "*")).map
    (fun v => strLower (normalizeAgentId v))

/-- Whether the allowlist permits the target agent (subagent-spawn.ts
lines 145-152): a wildcard entry, or membership of the lowercased target
id in the normalized allow set. -/
def allowlistPermits (cfg : Cfg) (requesterAgentId targetAgentId : String) : Bool :=
  (allowAgentsOf cfg requesterAgentId).any (fun v => strTrim v == "*") ||
    (allowSetOf cfg requesterAgentId).contains (strLower targetAgentId)

/-- Keep-first deduplication, mirroring JS `Set` insertion order for the
allowlist error text. -/
def dedupKeepFirst (l : List String) : List String :=
  l.foldl (fun acc x => if acc.contains x then acc else acc ++ [x]) []

/-- The allowlist rejection message (subagent-spawn.ts lines 153-157). -/
def allowlistErrorText (cfg : Cfg) (requesterAgentId : String) : String :=
  let dedup := dedupKeepFirst (allowSetOf cfg requesterAgentId)
  let allowedText := if dedup.length > 0 then String.intercalate ", " dedup else "none"
  "agentId is not allowed for sessions_spawn (allowed: " ++ allowedText ++ ")"

/-- The depth rejection message (subagent-spawn.ts line 126). -/
def depthErrorText (callerDepth maxSpawnDepth : Nat) : String :=
  "sessions_spawn is not allowed at this depth (current depth: " ++
    toString callerDepth ++ ", max: " ++ toString maxSpawnDepth ++ ")"

/-- The fan-out rejection message (subagent-spawn.ts line 135). -/
def fanoutErrorText (activeChildren maxChildren : Nat) : String :=
  "sessions_spawn has reached max active children for this session (" ++
    toString activeChildren ++ "/" ++ toString maxChildren ++ ")"

/-- The resolved effective model (subagent-spawn.ts lines 163-173): first
non-empty candidate of explicit override, target agent subagents model,
global subagents default, global primary default, and the process-wide
runtime default for the target agent. -/
def resolvedModelOf (p : SpawnParams) (cfg : Cfg) (targetAgentId : String) : Option String :=
  let targetSubCfg := resolveAgentSubagentsCfg cfg targetAgentId
  let runtimeDefault := cfg.runtimeDefault targetAgentId
  normalizeModelSelection (p.model.map .str) <|>
    normalizeModelSelection (targetSubCfg.bind (fun sc => sc.model)) <|>
      normalizeModelSelection cfg.defaultsSubagentsModel <|>
        normalizeModelSelection cfg.defaultsModelPrimary <|>
          normalizeModelSelection
            (some (.str (runtimeDefault.1 ++ "/" ++ runtimeDefault.2)))

/-- The configured thinking default (subagent-spawn.ts lines 175-177):
per-agent subagents value, else the global subagents default. -/
def resolvedThinkingDefaultOf (cfg : Cfg) (targetAgentId : String) : Option String :=
  readTrimmedString ((resolveAgentSubagentsCfg cfg targetAgentId).bind (fun sc => sc.thinking)) <|>
    readTrimmedString cfg.defaultsSubagentsThinking

/-- JS `a || b` on an optional string: an absent or empty `a` falls
through to `b` (subagent-spawn.ts line 180). -/
def jsOrString (a : Option String) (b : Option String) : Option String :=
  match a with
  | some s => if s = "" then b else some s
  | none => b

/-- The raw thinking candidate (subagent-spawn.ts line 180): the explicit
override, or the configured default when the override is absent/empty. -/
def thinkingCandidateOf (p : SpawnParams) (cfg : Cfg) (targetAgentId : String) : Option String :=
  jsOrString p.thinking (resolvedThinkingDefaultOf cfg targetAgentId)

/-- The thinking-level validation error message (subagent-spawn.ts lines
184-189). -/
def invalidThinkingText (raw : String) (resolvedModel : Option String) : String :=
  let pm := splitModelRef resolvedModel
  "Invalid thinking level \"" ++ raw ++ "\". Use one of: " ++
    formatThinkingLevels pm.1 pm.2 ++ "."

/-- Child session key (subagent-spawn.ts line 160). -/
def childSessionKeyOf (targetAgentId childUuid : String) : String :=
  "agent:" ++ targetAgentId ++ ":subagent:" ++ childUuid

/-- Data resolved before any gateway RPC is issued. `idemUuid` is the
fresh idempotency key generated before the launch call. -/
structure PreflightData where
  task : String
  labelOpt : Option String
  cleanup : String
  runTimeoutSeconds : Nat
  requesterInternalKey : String
  childSessionKey : String
  childDepth : Nat
  resolvedModel : Option String
  thinkingOverride : Option String
  idemUuid : String
deriving DecidableEq, Repr

/-- Cleanup normalization (subagent-spawn.ts lines 90-91). -/
def cleanupOf (p : SpawnParams) : String :=
  match p.cleanup with
  | some c => if c == "keep" || c == "delete" then c else "keep"
  | none => "keep"

/-- Run timeout normalization (subagent-spawn.ts lines 98-101). -/
def runTimeoutSecondsOf (p : SpawnParams) : Nat :=
  match p.runTimeoutSeconds with
  | some n => (max 0 n).toNat
  | none => 0

/-- Label normalization (subagent-spawn.ts line 86): trimmed, empty when
absent. -/
def labelOf (p : SpawnParams) : String :=
  strTrim (p.label.getD "")

/-- The requester agent id as `spawnSubagentDirect` computes it
(subagent-spawn.ts lines 139-141, composed). -/
def spawnRequesterAgentId (cfg : Cfg) (ctx : SpawnCtx) : String :=
  requesterAgentIdOf ctx (requesterInternalKeyOf cfg ctx)

/-- The target agent id as `spawnSubagentDirect` computes it
(subagent-spawn.ts line 142, composed). -/
def spawnTargetAgentId (p : SpawnParams) (cfg : Cfg) (ctx : SpawnCtx) : String :=
  targetAgentIdOf p (spawnRequesterAgentId cfg ctx)

/-- Model and thinking resolution stage (subagent-spawn.ts lines 160-192):
runs after admission, may reject with the thinking validation error,
otherwise produces the preflight data; no RPC has been issued yet. -/
def spawnPreflightResolveStage (p : SpawnParams) (cfg : Cfg) (callerDepth : Nat)
    (requesterInternalKey targetAgentId : String) (childUuid idemUuid : String) :
    Except SpawnResult PreflightData :=
  match thinkingCandidateOf p cfg targetAgentId with
  | some raw =>
    match normalizeThinkLevel raw with
    | none =>
      .error { status := .error,
               error := some (invalidThinkingText raw (resolvedModelOf p cfg targetAgentId)) }
    | some lvl =>
      .ok { task := p.task
            labelOpt := if labelOf p = "" then none else some (labelOf p)
            cleanup := cleanupOf p
            runTimeoutSeconds := runTimeoutSecondsOf p
            requesterInternalKey := requesterInternalKey
            childSessionKey := childSessionKeyOf targetAgentId childUuid
            childDepth := callerDepth + 1
            resolvedModel := resolvedModelOf p cfg targetAgentId
            thinkingOverride := some lvl
            idemUuid := idemUuid }
  | none =>
    .ok { task := p.task
          labelOpt := if labelOf p = "" then none else some (labelOf p)
          cleanup := cleanupOf p
          runTimeoutSeconds := runTimeoutSecondsOf p
          requesterInternalKey := requesterInternalKey
          childSessionKey := childSessionKeyOf targetAgentId childUuid
          childDepth := callerDepth + 1
          resolvedModel := resolvedModelOf p cfg targetAgentId
          thinkingOverride := none
          idemUuid := idemUuid }

/-- Allowlist admission stage (subagent-spawn.ts lines 139-159): reached
after the depth and fan-out checks pass. -/
def spawnPreflightAllowStage (p : SpawnParams) (ctx : SpawnCtx) (cfg : Cfg)
    (callerDepth : Nat) (requesterInternalKey : String) (childUuid idemUuid : String) :
    Except SpawnResult PreflightData :=
  if targetAgentIdOf p (requesterAgentIdOf ctx requesterInternalKey)
        ≠ requesterAgentIdOf ctx requesterInternalKey ∧
      ¬allowlistPermits cfg (requesterAgentIdOf ctx requesterInternalKey)
        (targetAgentIdOf p (requesterAgentIdOf ctx requesterInternalKey)) then
    .error { status := .forbidden,
             error := some (allowlistErrorText cfg (requesterAgentIdOf ctx requesterInternalKey)) }
  else
    spawnPreflightResolveStage p cfg callerDepth requesterInternalKey
      (targetAgentIdOf p (requesterAgentIdOf ctx requesterInternalKey)) childUuid idemUuid

/-- Pre-RPC phase of `spawnSubagentDirect` (subagent-spawn.ts lines
85-192): admission checks in source order (depth, fan-out, allowlist),
then model and thinking resolution. An `.error` value is returned to the
caller with no gateway call issued and no registry insertion. -/
def spawnPreflight (p : SpawnParams) (ctx : SpawnCtx) (cfg : Cfg) (callerDepth : Nat)
    (reg : Registry) (childUuid idemUuid : String) : Except SpawnResult PreflightData :=
  if callerDepth ≥ maxSpawnDepthOf cfg then
    .error { status := .forbidden,
             error := some (depthErrorText callerDepth (maxSpawnDepthOf cfg)) }
  else if countActiveRunsForSession (requesterInternalKeyOf cfg ctx) reg ≥ maxChildrenOf cfg then
    .error { status := .forbidden,
             error := some (fanoutErrorText
               (countActiveRunsForSession (requesterInternalKeyOf cfg ctx) reg)
               (maxChildrenOf cfg)) }
  else
    spawnPreflightAllowStage p ctx cfg callerDepth (requesterInternalKeyOf cfg ctx)
      childUuid idemUuid

/-- The preflight data a successful admission produces, written as one
record (used to characterize `spawnPreflight` on its `.ok` branch). -/
def preflightDataOf (p : SpawnParams) (ctx : SpawnCtx) (cfg : Cfg) (callerDepth : Nat)
    (childUuid idemUuid : String) : PreflightData :=
  { task := p.task
    labelOpt := if labelOf p = "" then none else some (labelOf p)
    cleanup := cleanupOf p
    runTimeoutSeconds := runTimeoutSecondsOf p
    requesterInternalKey := requesterInternalKeyOf cfg ctx
    childSessionKey := childSessionKeyOf (spawnTargetAgentId p cfg ctx) childUuid
    childDepth := callerDepth + 1
    resolvedModel := resolvedModelOf p cfg (spawnTargetAgentId p cfg ctx)
    thinkingOverride := (thinkingCandidateOf p cfg (spawnTargetAgentId p cfg ctx)).bind
      normalizeThinkLevel
    idemUuid := idemUuid }

/-- Output of the side-effecting part of the spawn engine: the result,
the gateway calls issued in order, and the registry insertion if any. -/
structure SpawnOutput where
  result : SpawnResult
  calls : List GatewayCall
  registered : Option RunRecord
deriving DecidableEq, Repr

/-- An RPC-failure spawn result (subagent-spawn.ts lines 199-207 and
analogous catch blocks): the child session key is still returned. -/
def rpcErrorResult (message childSessionKey : String) (runId : Option String) : SpawnResult :=
  { status := .error, error := some message, childSessionKey := some childSessionKey,
    runId := runId }

/-- Whether a model-patch failure is recoverable (subagent-spawn.ts lines
220-221). -/
def recoverableModelError (message : String) : Bool :=
  strContainsSubstr message "invalid model" || strContainsSubstr message "model not allowed"

/-- The run id adopted from an `agent` RPC response (subagent-spawn.ts
lines 288-290, commands file lines 581-584): the response run id when it
is a non-empty string, otherwise the idempotency key. -/
def runIdFromOutcome (idemUuid : String) : RpcOutcome → String
  | .okRun (some s) => if s ≠ "" then s else idemUuid
  | _ => idemUuid

/-- The `agent` launch call issued by the spawn engine (subagent-spawn.ts
lines 264-287). -/
def spawnLaunchCall (d : PreflightData) : GatewayCall :=
  GatewayCall.agentLaunch d.task d.childSessionKey none d.idemUuid false
    laneSubagent d.runTimeoutSeconds d.labelOpt (some d.requesterInternalKey) d.thinkingOverride

/-- Launch phase (subagent-spawn.ts lines 262-321): issue the `agent`
call, adopt the run id, register the run, and build the accepted result.
On failure the result still carries the child session key and the
idempotency-key run id. -/
def spawnLaunchPhase (d : PreflightData) (gw : GatewayCall → RpcOutcome) (now : Nat)
    (calls : List GatewayCall) (modelApplied : Bool) (warning : Option String) : SpawnOutput :=
  match gw (spawnLaunchCall d) with
  | .err m =>
    { result := rpcErrorResult m d.childSessionKey (some d.idemUuid),
      calls := calls ++ [spawnLaunchCall d], registered := none }
  | out =>
    { result := { status := .accepted,
                  childSessionKey := some d.childSessionKey,
                  runId := some (runIdFromOutcome d.idemUuid out),
                  modelApplied := if d.resolvedModel.isSome then some modelApplied else none,
                  warning := warning },
      calls := calls ++ [spawnLaunchCall d],
      registered := some { runId := runIdFromOutcome d.idemUuid out
                           childSessionKey := d.childSessionKey
                           requesterSessionKey := d.requesterInternalKey
                           task := d.task
                           label := d.labelOpt
                           model := d.resolvedModel
                           cleanup := d.cleanup
                           runTimeoutSeconds := d.runTimeoutSeconds
                           createdAt := now } }

/-- Thinking patch phase (subagent-spawn.ts lines 232-251): patch the
thinking level when an override was resolved; `"off"` patches null. -/
def spawnThinkingPhase (d : PreflightData) (gw : GatewayCall → RpcOutcome) (now : Nat)
    (calls : List GatewayCall) (modelApplied : Bool) (warning : Option String) : SpawnOutput :=
  match d.thinkingOverride with
  | none => spawnLaunchPhase d gw now calls modelApplied warning
  | some lvl =>
    match gw (GatewayCall.patchThinking d.childSessionKey
        (if lvl == "off" then none else some lvl)) with
    | .err m =>
      { result := rpcErrorResult m d.childSessionKey none,
        calls := calls ++ [GatewayCall.patchThinking d.childSessionKey
          (if lvl == "off" then none else some lvl)],
        registered := none }
    | _ =>
      spawnLaunchPhase d gw now
        (calls ++ [GatewayCall.patchThinking d.childSessionKey
          (if lvl == "off" then none else some lvl)])
        modelApplied warning

/-- Model patch phase (subagent-spawn.ts lines 209-231): patch the
resolved model; a failure whose message mentions "invalid model" or
"model not allowed" is recoverable and becomes a warning, any other
failure aborts the spawn. -/
def spawnModelPhase (d : PreflightData) (gw : GatewayCall → RpcOutcome) (now : Nat)
    (calls : List GatewayCall) : SpawnOutput :=
  match d.resolvedModel with
  | none => spawnThinkingPhase d gw now calls false none
  | some m =>
    match gw (GatewayCall.patchModel d.childSessionKey m) with
    | .err msg =>
      if recoverableModelError msg then
        spawnThinkingPhase d gw now
          (calls ++ [GatewayCall.patchModel d.childSessionKey m]) false (some msg)
      else
        { result := rpcErrorResult msg d.childSessionKey none,
          calls := calls ++ [GatewayCall.patchModel d.childSessionKey m], registered := none }
    | _ =>
      spawnThinkingPhase d gw now
        (calls ++ [GatewayCall.patchModel d.childSessionKey m]) true none

/-- RPC phase of the spawn engine (subagent-spawn.ts lines 193-321):
depth patch, then model patch, thinking patch, and launch. -/
def spawnRpcPhase (d : PreflightData) (gw : GatewayCall → RpcOutcome) (now : Nat) : SpawnOutput :=
  match gw (GatewayCall.patchDepth d.childSessionKey d.childDepth) with
  | .err m =>
    { result := rpcErrorResult m d.childSessionKey none,
      calls := [GatewayCall.patchDepth d.childSessionKey d.childDepth], registered := none }
  | _ => spawnModelPhase d gw now [GatewayCall.patchDepth d.childSessionKey d.childDepth]

/-- Translated from `spawnSubagentDirect` (subagent-spawn.ts lines
81-322). `callerDepth` is the value `getSubagentDepthFromSessionStore`
resolved for the requester (that collaborator is not in the snapshot);
`childUuid` and `idemUuid` are the two `crypto.randomUUID()` draws;
`gw` is the gateway RPC collaborator. -/
def spawnSubagentDirect (p : SpawnParams) (ctx : SpawnCtx) (cfg : Cfg) (callerDepth : Nat)
    (reg : Registry) (childUuid idemUuid : String) (gw : GatewayCall → RpcOutcome)
    (now : Nat) : SpawnOutput :=
  match spawnPreflight p ctx cfg callerDepth reg childUuid idemUuid with
  | .error r => { result := r, calls := [], registered := none }
  | .ok d => spawnRpcPhase d gw now

/-! ## Command surface (translated from src/unnamed/part_005,
commands-subagents.ts) -/

/-- The recent-run retention window (commands file line 52), in
milliseconds. -/
def recentWindowMs : Nat := 30 * 60000

/-- The steer settle-wait timeout (commands file line 54). -/
def steerSettleTimeoutMs : Nat := 5000

/-- Modelled from the spec: `truncateLine` from shared/subagents-format
(not in the snapshot) caps a line at a maximum length. -/
def truncateLine (s : String) (maxLen : Nat) : String :=
  if strLength s ≤ maxLen then s else strTake s maxLen

/-- Collapse whitespace runs to single spaces and trim (commands file
lines 56-58, `compactLine`). -/
def compactLine (s : String) : String :=
  String.intercalate " " ((strSplitBy Char.isWhitespace s).filter (fun w => w ≠ ""))

/-- Modelled from the spec: `formatRunLabel` from commands/subagents-utils
(not in the snapshot) renders the record label, falling back to a
derived/truncated task preview when no label is set (§3). -/
def formatRunLabel (r : RunRecord) : String :=
  match r.label with
  | some l => if strTrim l ≠ "" then l else truncateLine (compactLine r.task) 32
  | none => truncateLine (compactLine r.task) 32

/-- The sort key used by the modelled newest-first ordering: start time,
falling back to creation time. -/
def runSortKey (r : RunRecord) : Nat :=
  r.startedAt.getD r.createdAt

/-- Insert into a descending-by-key list, keeping earlier elements first
among ties. -/
def insertByKeyDesc (r : RunRecord) : List RunRecord → List RunRecord
  | [] => [r]
  | x :: xs =>
    if runSortKey r > runSortKey x then r :: x :: xs else x :: insertByKeyDesc r xs

/-- Modelled from the spec: `sortSubagentRuns` from
commands/subagents-utils (not in the snapshot) orders runs newest-first
(§4.3: "last" is the most-recently-started run, list sections are
newest-first). -/
def sortSubagentRuns (runs : List RunRecord) : List RunRecord :=
  runs.foldr insertByKeyDesc []

/-- Whether a run ended within the recent window (commands file lines
143, 146, 302, 323): `!!entry.endedAt && (entry.endedAt ?? 0) >=
recentCutoff`. -/
def endedRecently (now : Nat) (r : RunRecord) : Bool :=
  r.endedAt.isSome && (r.endedAt.getD 0) ≥ now - recentWindowMs

/-- The numeric-index ordering built inside `resolveSubagentTarget`
(commands file lines 142-147): active runs of the sorted list first, then
runs ended within the recent window. -/
def numericOrderOf (runs : List RunRecord) (now : Nat) : List RunRecord :=
  let sorted := sortSubagentRuns runs
  sorted.filter (fun e => e.endedAt.isNone) ++ sorted.filter (fun e => endedRecently now e)

/-- The entry ordering the `list` action renders (commands file lines
299-341): the active section over the sorted runs, then the recent
section, indices continuing across both. -/
def listDisplayOrder (runs : List RunRecord) (now : Nat) : List RunRecord :=
  let sorted := sortSubagentRuns runs
  sorted.filter (fun e => e.endedAt.isNone) ++ sorted.filter (fun e => endedRecently now e)

/-- The numbered lines of a `list` rendering, as pairs of the 1-based
index and the record the line is rendered from (commands file lines
304-340; the textual fields of each line involve session-store lookups
and are not needed by any claim). -/
def listNumberedEntries (runs : List RunRecord) (now : Nat) : List (Nat × RunRecord) :=
  (listDisplayOrder runs now).enum.map (fun p => (p.1 + 1, p.2))

/-- Result shape of `resolveSubagentTarget` (commands file lines 42-45):
both fields optional, mirroring the source object. -/
structure SubagentTargetResolution where
  entry : Option RunRecord := none
  error : Option String := none
deriving DecidableEq, Repr

/-- Whether a trimmed token is all digits, mirroring the `/^\d+$/` test
(commands file line 148); `String.toNat?` succeeds exactly on non-empty
all-digit strings, and its value agrees with `parseInt` on them. -/
def isNumericToken (s : String) : Bool :=
  (strToNatQ s).isSome

/-- Translated from `resolveSubagentTarget` (commands file lines
130-184): the target sub-DSL over a requester runs. -/
def resolveSubagentTarget (runs : List RunRecord) (token : Option String) (now : Nat) :
    SubagentTargetResolution :=
  let trimmed := strTrim (token.getD "")
  if trimmed = "" then { error := some "Missing subagent id." }
  else if trimmed = "last" then { entry := (sortSubagentRuns runs).head? }
  else
    let numericOrder := numericOrderOf runs now
    if isNumericToken trimmed then
      let idx := (strToNatQ trimmed).getD 0
      if idx = 0 ∨ idx > numericOrder.length then
        { error := some ("Invalid subagent index: " ++ trimmed) }
      else
        { entry := numericOrder.get? (idx - 1) }
    else if strContainsChar trimmed ':' then
      match runs.find? (fun e => e.childSessionKey == trimmed) with
      | some e => { entry := some e }
      | none => { error := some ("Unknown subagent session: " ++ trimmed) }
    else
      let lowered := strLower trimmed
      let byLabel := runs.filter (fun e => strLower (formatRunLabel e) == lowered)
      if byLabel.length = 1 then { entry := byLabel.head? }
      else if byLabel.length > 1 then
        { error := some ("Ambiguous subagent label: " ++ trimmed) }
      else
        let byLabelStart := runs.filter (fun e => strPrefixEq lowered (strLower (formatRunLabel e)))
        if byLabelStart.length = 1 then { entry := byLabelStart.head? }
        else if byLabelStart.length > 1 then
          { error := some ("Ambiguous subagent label prefix: " ++ trimmed) }
        else
          let byRunId := runs.filter (fun e => strPrefixEq trimmed e.runId)
          if byRunId.length = 1 then { entry := byRunId.head? }
          else if byRunId.length > 1 then
            { error := some ("Ambiguous run id prefix: " ++ trimmed) }
          else { error := some ("Unknown subagent id: " ++ trimmed) }

/-- Modelled from the spec: `stripToolMessages` from
tools/sessions-helpers (not in the snapshot) filters out tool-call and
tool-result messages (§4.3 `log`). -/
def stripToolMessages (msgs : List ChatMessage) : List ChatMessage :=
  msgs.filter (fun m => !m.isTool)

/-- Messages returned by a `chat.history` outcome; a thrown error or a
mismatched payload reads as no messages. -/
def historyMessagesOf : RpcOutcome → List ChatMessage
  | .okHistory msgs => msgs
  | _ => []

/-- The history limit computed by the `log` action (commands file lines
472-473): the first all-digit token among the action arguments, clamped
to at least 1 and at most 200, or 20 when no all-digit token exists.
Note the scan includes the target token itself. -/
def logLimitOf (restTokens : List String) : Nat :=
  match restTokens.find? isNumericToken with
  | some t => min 200 (max 1 ((strToNatQ t).getD 0))
  | none => 20

/-- Whether the `log` action keeps tool messages (commands file line
471): any token equal to "tools" after lowercasing. -/
def logIncludeToolsOf (restTokens : List String) : Bool :=
  restTokens.any (fun t => strLower t == "tools")

/-- Output of the `log` action: the `chat.history` call issued (if the
target resolved), the rendered message list after optional tool
filtering, or the error reply text. -/
structure LogActionOutput where
  call : Option GatewayCall := none
  rendered : Option (List ChatMessage) := none
  errorReply : Option String := none
deriving DecidableEq, Repr

/-- Translated from the `log` action of `handleSubagentsCommand`
(commands file lines 466-493): compute the tools flag and the limit from
the argument tokens, resolve the target, fetch history, and filter tool
messages unless requested. Rendering of role-prefixed lines is elided
(no claim touches it). -/
def logAction (runs : List RunRecord) (restTokens : List String) (now : Nat)
    (gw : GatewayCall → RpcOutcome) : LogActionOutput :=
  match restTokens.head? with
  | none => { errorReply := some "Usage: /subagents log <id|#> [limit]" }
  | some target =>
    let includeTools := logIncludeToolsOf restTokens
    let limit := logLimitOf restTokens
    let resolved := resolveSubagentTarget runs (some target) now
    match resolved.entry with
    | none => { errorReply := some (resolved.error.getD "Unknown subagent.") }
    | some r =>
      let c := GatewayCall.chatHistory r.childSessionKey limit
      let rawMessages := historyMessagesOf (gw c)
      let filtered := if includeTools then rawMessages else stripToolMessages rawMessages
      { call := some c, rendered := some filtered }

/-- Output of the send/steer path: the resulting registry, the registry
operations performed in order, the gateway calls issued, the reply text,
the launched run id when the `agent` call succeeded, and the message of
an exception that would escape the handler (none arise in the steer
branch). -/
structure SteerSendOutput where
  registry : Registry
  ops : List RegOp
  calls : List GatewayCall
  reply : String
  launchedRunId : Option String := none
  thrown : Option String := none
deriving DecidableEq, Repr

/-- Reply for a steer on an already-finished run (commands file lines
518-523). -/
def alreadyFinishedReply (entry : RunRecord) : String :=
  formatRunLabel entry ++ " is already finished."

/-- The steer confirmation reply (commands file line 606). -/
def steeredReply (entry : RunRecord) (runId : String) : String :=
  "steered " ++ formatRunLabel entry ++ " (run " ++ strTake runId 8 ++ ")."

/-- The synchronous wait tail of the `send` action (commands file lines
611-646): wait for the run, then distinguish timeout, error, and
completion; on completion fetch history and extract the last non-tool
message text. The `agent.wait` and `chat.history` calls are not guarded
by try/catch in the source, so a thrown error escapes the handler; that
is recorded in `thrown`. -/
def sendWaitPhase (reg : Registry) (entry : RunRecord) (runId : String)
    (gw : GatewayCall → RpcOutcome) (ops : List RegOp) (calls : List GatewayCall) :
    SteerSendOutput :=
  match gw (GatewayCall.agentWait runId 30000) with
  | .err m =>
    { registry := reg, ops := ops, calls := calls ++ [GatewayCall.agentWait runId 30000],
      reply := "", launchedRunId := some runId, thrown := some m }
  | .okWait (some "timeout") _ =>
    { registry := reg, ops := ops, calls := calls ++ [GatewayCall.agentWait runId 30000],
      reply := "⏳ Subagent still running (run " ++ strTake runId 8 ++ ").",
      launchedRunId := some runId }
  | .okWait (some "error") waitError =>
    { registry := reg, ops := ops, calls := calls ++ [GatewayCall.agentWait runId 30000],
      reply := "⚠️ Subagent error: " ++ waitError.getD "unknown error" ++
        " (run " ++ strTake runId 8 ++ ").",
      launchedRunId := some runId }
  | _ =>
    match gw (GatewayCall.chatHistory entry.childSessionKey 50) with
    | .err m =>
      { registry := reg, ops := ops,
        calls := calls ++ [GatewayCall.agentWait runId 30000,
          GatewayCall.chatHistory entry.childSessionKey 50],
        reply := "", launchedRunId := some runId, thrown := some m }
    | out =>
      { registry := reg, ops := ops,
        calls := calls ++ [GatewayCall.agentWait runId 30000,
          GatewayCall.chatHistory entry.childSessionKey 50],
        reply := (((stripToolMessages (historyMessagesOf out)).getLast?).map
            (fun m => m.text)).getD
          ("✅ Sent to " ++ formatRunLabel entry ++ " (run " ++ strTake runId 8 ++ ")."),
        launchedRunId := some runId }

/-- The `agent` relaunch call of the send/steer path (commands file lines
566-580). -/
def steerLaunchCall (entry : RunRecord) (message : String) (targetSessionId : Option String)
    (idemUuid : String) : GatewayCall :=
  GatewayCall.agentLaunch message entry.childSessionKey targetSessionId idemUuid false
    laneSubagent 0 none none none

/-- The steer branch on a resolved, not-yet-ended target (commands file
lines 533-608): mark for steer-restart, interrupt and drain (the abort
signal and queue clearing touch neither the registry nor the gateway
oracle and are elided), best-effort settle wait whose failure is
swallowed, relaunch; on relaunch failure clear the steer-restart flag
and reply with the failure; on success replace the tracked run. -/
def steerPath (reg : Registry) (entry : RunRecord) (message : String)
    (targetSessionId : Option String) (idemUuid : String) (gw : GatewayCall → RpcOutcome)
    (now : Nat) : SteerSendOutput :=
  match gw (steerLaunchCall entry message targetSessionId idemUuid) with
  | .err m =>
    { registry := clearSubagentRunSteerRestart entry.runId
        (markSubagentRunForSteerRestart entry.runId reg),
      ops := [RegOp.markSteer entry.runId, RegOp.clearSteer entry.runId],
      calls := [GatewayCall.agentWait entry.runId steerSettleTimeoutMs,
                steerLaunchCall entry message targetSessionId idemUuid],
      reply := "send failed: " ++ m }
  | out =>
    { registry := replaceSubagentRunAfterSteer entry.runId (runIdFromOutcome idemUuid out)
        entry entry.runTimeoutSeconds now (markSubagentRunForSteerRestart entry.runId reg),
      ops := [RegOp.markSteer entry.runId,
              RegOp.replaceAfterSteer entry.runId (runIdFromOutcome idemUuid out)],
      calls := [GatewayCall.agentWait entry.runId steerSettleTimeoutMs,
                steerLaunchCall entry message targetSessionId idemUuid],
      reply := steeredReply entry (runIdFromOutcome idemUuid out),
      launchedRunId := some (runIdFromOutcome idemUuid out) }

/-- The send branch on a resolved target (commands file lines 564-646):
launch and synchronously wait for the reply. -/
def sendPath (reg : Registry) (entry : RunRecord) (message : String)
    (targetSessionId : Option String) (idemUuid : String) (gw : GatewayCall → RpcOutcome) :
    SteerSendOutput :=
  match gw (steerLaunchCall entry message targetSessionId idemUuid) with
  | .err m =>
    { registry := reg, ops := [],
      calls := [steerLaunchCall entry message targetSessionId idemUuid],
      reply := "send failed: " ++ m }
  | out =>
    sendWaitPhase reg entry (runIdFromOutcome idemUuid out) gw []
      [steerLaunchCall entry message targetSessionId idemUuid]

/-- Translated from the send/steer path of `handleSubagentsCommand`
(commands file lines 495-647), starting from a resolved target entry:
reject steering an already-finished run, otherwise take the steer or the
send branch. -/
def sendOrSteerOnResolved (steerRequested : Bool) (reg : Registry) (entry : RunRecord)
    (message : String) (targetSessionId : Option String) (idemUuid : String)
    (gw : GatewayCall → RpcOutcome) (now : Nat) : SteerSendOutput :=
  if steerRequested ∧ entry.endedAt.isSome then
    { registry := reg, ops := [], calls := [], reply := alreadyFinishedReply entry }
  else if steerRequested then
    steerPath reg entry message targetSessionId idemUuid gw now
  else
    sendPath reg entry message targetSessionId idemUuid gw

/-! ## Spec-side definitions for refinement claims -/

/-- The model candidate list in the spec priority order (§4.2): explicit
override, target agent configured subagent model, global subagent
default, global default, process-wide runtime default. -/
def modelCandidatesOf (p : SpawnParams) (cfg : Cfg) (targetAgentId : String) :
    List (Option ModelSetting) :=
  [p.model.map .str,
   (resolveAgentSubagentsCfg cfg targetAgentId).bind (fun sc => sc.model),
   cfg.defaultsSubagentsModel,
   cfg.defaultsModelPrimary,
   some (.str ((cfg.runtimeDefault targetAgentId).1 ++ "/" ++
     (cfg.runtimeDefault targetAgentId).2))]

/-- Definition following the spec words (C5): each candidate is trimmed
and skipped when empty or whitespace-only; object candidates contribute
their `primary` string. -/
def specTrimCandidate : Option ModelSetting → Option String
  | some (.str s) => if strTrim s = "" then none else some (strTrim s)
  | some (.obj (some s)) => if strTrim s = "" then none else some (strTrim s)
  | some (.obj none) => none
  | none => none

/-- Definition following the spec words (C5): the effective model is the
first candidate that survives trimming and emptiness skipping. -/
def specEffectiveModel (candidates : List (Option ModelSetting)) : Option String :=
  (candidates.filterMap specTrimCandidate).head?

/-! ## Concrete fixtures used by witness theorems -/

/-- A configuration fixture granting the `main` agent a given spawn
allowlist. -/
def allowWitnessCfg (allow : List String) : Cfg :=
  { agents := [{ id := "main", subagents := some { allowAgents := some allow } }] }

/-- A run record fixture for witnesses: an active child of
`agent:main:chat`. -/
def fanoutWitnessRun (rid : String) : RunRecord :=
  { runId := rid, childSessionKey := "agent:beta:subagent:" ++ rid,
    requesterSessionKey := "agent:main:chat", task := "task " ++ rid }

/-- A registry fixture holding five active children of
`agent:main:chat`. -/
def fanoutWitnessRegistry : Registry :=
  [fanoutWitnessRun "r1", fanoutWitnessRun "r2", fanoutWitnessRun "r3",
   fanoutWitnessRun "r4", fanoutWitnessRun "r5"]

/-- A configuration fixture with a global subagent default model that
needs trimming. -/
def modelWitnessCfg : Cfg :=
  { defaultsSubagentsModel := some (.str " m1 ") }

/-- The record the model-resolution witness spawn registers. -/
def modelWitnessRec : RunRecord :=
  { runId := "run-9", childSessionKey := "agent:main:subagent:u1",
    requesterSessionKey := "agent:main:chat", task := "t",
    model := some "m1", createdAt := 5 }

/-- A gateway oracle whose model patch fails with a recoverable message
and whose launch succeeds. -/
def recoverableGw : GatewayCall → RpcOutcome := fun c =>
  match c with
  | .patchModel _ _ => .err "invalid model: nope"
  | .agentLaunch _ _ _ _ _ _ _ _ _ _ => .okRun (some "run-7")
  | _ => .okUnit

/-- A run list fixture: two active runs and one recently ended run of the
same requester. Sorted newest-first this lists `rb` (started 200), `ra`
(started 100) as active, then `rc` (ended 300) as recent. -/
def ixRuns : List RunRecord :=
  [{ runId := "ra", childSessionKey := "agent:beta:subagent:a",
     requesterSessionKey := "agent:main:chat", task := "task a", startedAt := some 100 },
   { runId := "rb", childSessionKey := "agent:beta:subagent:b",
     requesterSessionKey := "agent:main:chat", task := "task b", startedAt := some 200 },
   { runId := "rc", childSessionKey := "agent:beta:subagent:c",
     requesterSessionKey := "agent:main:chat", task := "task c", startedAt := some 150,
     endedAt := some 300 }]

/-- A gateway oracle serving a two-message history, the first message a
tool result. -/
def historyGw : GatewayCall → RpcOutcome := fun c =>
  match c with
  | .chatHistory _ _ =>
    .okHistory [{ role := "toolResult", text := "tool output", isTool := true },
                { role := "assistant", text := "hello" }]
  | _ => .okUnit

/-- An active run fixture for the steer witness, with the steer-restart
flag initially clear. -/
def steerWitnessRun : RunRecord :=
  { runId := "rs", childSessionKey := "agent:beta:subagent:s",
    requesterSessionKey := "agent:main:chat", task := "steer me", startedAt := some 100 }

/-- A gateway oracle whose `agent` relaunch call fails. -/
def launchFailGw : GatewayCall → RpcOutcome := fun c =>
  match c with
  | .agentLaunch _ _ _ _ _ _ _ _ _ _ => .err "gateway closed"
  | _ => .okUnit

/-- A gateway oracle whose `agent` relaunch call returns run id `rn`. -/
def launchOkGw : GatewayCall → RpcOutcome := fun c =>
  match c with
  | .agentLaunch _ _ _ _ _ _ _ _ _ _ => .okRun (some "rn")
  | _ => .okUnit

/-! ## Shared helper lemmas -/

theorem specTrimCandidate_eq_normalize (c : Option ModelSetting) :
    specTrimCandidate c = normalizeModelSelection c := by
  match c with
  | none => rfl
  | some (.str s) =>
    simp only [specTrimCandidate, normalizeModelSelection]
  | some (.obj none) => rfl
  | some (.obj (some s)) =>
    simp only [specTrimCandidate, normalizeModelSelection]
    by_cases h : s.trim = "" <;> simp [h]

theorem head_filterMap_cons (x : Option String) (l : List (Option String)) :
    ((x :: l).filterMap id).head? = (x <|> (l.filterMap id).head?) := by
  cases x <;> simp

theorem clear_after_mark (rid : String) (reg : Registry) :
    clearSubagentRunSteerRestart rid (markSubagentRunForSteerRestart rid reg) =
      reg.map (fun r => if r.runId == rid then { r with steerRestart := false } else r) := by
  unfold clearSubagentRunSteerRestart markSubagentRunForSteerRestart
  rw [List.map_map]
  apply List.map_congr_left
  intro r _
  by_cases h : r.runId = rid
  · simp [h]
  · simp [h]

theorem clear_after_mark_runIds (rid : String) (reg : Registry) :
    (clearSubagentRunSteerRestart rid (markSubagentRunForSteerRestart rid reg)).map
        (fun r => r.runId) = reg.map (fun r => r.runId) := by
  rw [clear_after_mark, List.map_map]
  apply List.map_congr_left
  intro r _
  by_cases h : r.runId = rid
  · simp [h]
  · simp [h]

theorem markTerminated_no_match (rid reason : String) (now : Nat) :
    ∀ (l : Registry), (∀ a ∈ l, (a.runId == rid) = false) →
      markSubagentRunTerminated rid reason now l = l
  | [], _ => rfl
  | x :: xs, h => by
    have hx := h x (List.mem_cons_self x xs)
    have ih := markTerminated_no_match rid reason now xs
      (fun a ha => h a (List.mem_cons_of_mem x ha))
    unfold markSubagentRunTerminated at ih ⊢
    rw [List.map_cons, ih, hx]
    simp

theorem countActive_cons (key : String) (x : RunRecord) (l : Registry) :
    countActiveRunsForSession key (x :: l) =
      (if x.requesterSessionKey == key && x.endedAt.isNone then 1 else 0) +
        countActiveRunsForSession key l := by
  simp only [countActiveRunsForSession, List.filter_cons]
  split <;> simp [Nat.add_comm]

/-- Terminating the record with a given run id, in a registry whose run
ids are pairwise distinct (the registry invariant of §3), when that
record is an active child of `key`, decrements the active-children count
by one. -/
theorem countActive_after_terminate (key rid reason : String) (now : Nat) :
    ∀ (reg : Registry), (reg.map (fun r2 => r2.runId)).Nodup →
      ∀ r ∈ reg, r.runId = rid → r.endedAt = none → r.requesterSessionKey = key →
      countActiveRunsForSession key (markSubagentRunTerminated rid reason now reg) + 1 =
        countActiveRunsForSession key reg
  | [], _, r, hr, _, _, _ => absurd hr (List.not_mem_nil r)
  | x :: xs, hnodup, r, hr, hrid, hend, hreq => by
    rw [List.map_cons, List.nodup_cons] at hnodup
    obtain ⟨hnotin, hnodup2⟩ := hnodup
    rcases List.mem_cons.mp hr with rfl | hrxs
    · -- the head is the terminated record; no tail record shares its id
      have hcond : (r.runId == rid && r.endedAt.isNone) = true := by simp [hrid, hend]
      have hnomatch : ∀ a ∈ xs, (a.runId == rid) = false := by
        intro a ha
        cases h2 : (a.runId == rid) with
        | false => rfl
        | true =>
          exfalso
          apply hnotin
          have ha2 : a.runId = rid := by simpa using h2
          rw [hrid, ← ha2]
          exact List.mem_map_of_mem _ ha
      have hxs_eq := markTerminated_no_match rid reason now xs hnomatch
      have hxs_eq2 : (xs.map fun r2 =>
          if r2.runId == rid && r2.endedAt.isNone then
            { r2 with endedAt := some now, outcomeStatus := some reason }
          else r2) = xs := hxs_eq
      unfold markSubagentRunTerminated
      rw [List.map_cons, hxs_eq2, if_pos hcond, countActive_cons, countActive_cons]
      have hreqb : (r.requesterSessionKey == key) = true := by simp [hreq]
      simp only [hreqb, hend, Option.isNone_some, Option.isNone_none, Bool.and_false,
        Bool.and_true, Bool.true_and]
      simp
      omega
    · -- the head is untouched; recurse on the tail
      have hxfalse : (x.runId == rid) = false := by
        cases h2 : (x.runId == rid) with
        | false => rfl
        | true =>
          exfalso
          apply hnotin
          have hx2 : x.runId = rid := by simpa using h2
          rw [hx2, ← hrid]
          exact List.mem_map_of_mem _ hrxs
      have ih := countActive_after_terminate key rid reason now xs hnodup2 r hrxs hrid hend hreq
      have hcondf : ¬((x.runId == rid && x.endedAt.isNone) = true) := by
        simp [hxfalse]
      unfold markSubagentRunTerminated at ih ⊢
      rw [List.map_cons, if_neg hcondf, countActive_cons, countActive_cons]
      omega

theorem spawnLaunchPhase_not_forbidden (d : PreflightData) (gw : GatewayCall → RpcOutcome)
    (now : Nat) (calls : List GatewayCall) (modelApplied : Bool) (warning : Option String) :
    (spawnLaunchPhase d gw now calls modelApplied warning).result.status ≠
      SpawnStatus.forbidden := by
  unfold spawnLaunchPhase
  split <;> simp [rpcErrorResult]

theorem spawnThinkingPhase_not_forbidden (d : PreflightData) (gw : GatewayCall → RpcOutcome)
    (now : Nat) (calls : List GatewayCall) (modelApplied : Bool) (warning : Option String) :
    (spawnThinkingPhase d gw now calls modelApplied warning).result.status ≠
      SpawnStatus.forbidden := by
  unfold spawnThinkingPhase
  repeat' split
  all_goals first
    | apply spawnLaunchPhase_not_forbidden
    | simp [rpcErrorResult]

theorem spawnModelPhase_not_forbidden (d : PreflightData) (gw : GatewayCall → RpcOutcome)
    (now : Nat) (calls : List GatewayCall) :
    (spawnModelPhase d gw now calls).result.status ≠ SpawnStatus.forbidden := by
  unfold spawnModelPhase
  repeat' split
  all_goals first
    | apply spawnThinkingPhase_not_forbidden
    | simp [rpcErrorResult]

theorem spawnRpcPhase_not_forbidden (d : PreflightData) (gw : GatewayCall → RpcOutcome)
    (now : Nat) : (spawnRpcPhase d gw now).result.status ≠ SpawnStatus.forbidden := by
  unfold spawnRpcPhase
  split
  · simp [rpcErrorResult]
  · apply spawnModelPhase_not_forbidden

theorem resolveStage_error_status (p : SpawnParams) (cfg : Cfg) (callerDepth : Nat)
    (requesterInternalKey targetAgentId childUuid idemUuid : String) (r : SpawnResult)
    (h : spawnPreflightResolveStage p cfg callerDepth requesterInternalKey targetAgentId
          childUuid idemUuid = .error r) :
    r.status = SpawnStatus.error := by
  unfold spawnPreflightResolveStage at h
  split at h
  · split at h
    · cases h
      rfl
    · cases h
  · cases h

theorem spawnPreflight_error_status (p : SpawnParams) (ctx : SpawnCtx) (cfg : Cfg)
    (callerDepth : Nat) (reg : Registry) (childUuid idemUuid : String) (r : SpawnResult)
    (h : spawnPreflight p ctx cfg callerDepth reg childUuid idemUuid = .error r) :
    r.status = .forbidden ∨ r.status = .error := by
  unfold spawnPreflight spawnPreflightAllowStage spawnPreflightResolveStage at h
  repeat' split at h
  all_goals first
    | (cases h; simp)
    | exact Except.noConfusion h

theorem spawnPreflight_ok (p : SpawnParams) (ctx : SpawnCtx) (cfg : Cfg) (callerDepth : Nat)
    (reg : Registry) (childUuid idemUuid : String) (d : PreflightData)
    (h : spawnPreflight p ctx cfg callerDepth reg childUuid idemUuid = .ok d) :
    d = preflightDataOf p ctx cfg callerDepth childUuid idemUuid := by
  unfold spawnPreflight spawnPreflightAllowStage spawnPreflightResolveStage at h
  split at h
  · exact Except.noConfusion h
  · split at h
    · exact Except.noConfusion h
    · split at h
      · exact Except.noConfusion h
      · split at h
        next raw heq1 =>
          split at h
          next heq2 => exact Except.noConfusion h
          next lvl heq2 =>
            cases h
            simp [preflightDataOf, spawnTargetAgentId, spawnRequesterAgentId, heq1, heq2]
        next heq1 =>
          cases h
          simp [preflightDataOf, spawnTargetAgentId, spawnRequesterAgentId, heq1]

theorem runIdFromOutcome_ne (idemUuid : String) (hid : idemUuid ≠ "") (o : RpcOutcome) :
    runIdFromOutcome idemUuid o ≠ "" := by
  unfold runIdFromOutcome
  split
  · split
    · assumption
    · exact hid
  · exact hid

theorem spawnLaunchPhase_props (d : PreflightData) (gw : GatewayCall → RpcOutcome) (now : Nat)
    (calls : List GatewayCall) (a : Bool) (w : Option String) :
    (∀ rec, (spawnLaunchPhase d gw now calls a w).registered = some rec →
        rec.model = d.resolvedModel ∧
        rec.runId = runIdFromOutcome d.idemUuid (gw (spawnLaunchCall d)) ∧
        rec.endedAt = none ∧
        rec.requesterSessionKey = d.requesterInternalKey) ∧
    ((spawnLaunchPhase d gw now calls a w).result.status = .accepted →
      (spawnLaunchPhase d gw now calls a w).result.runId
          = some (runIdFromOutcome d.idemUuid (gw (spawnLaunchCall d))) ∧
      spawnLaunchCall d ∈ (spawnLaunchPhase d gw now calls a w).calls) := by
  unfold spawnLaunchPhase
  split
  next m heq => simp [rpcErrorResult]
  next out heq =>
    constructor
    · intro rec hrec
      rw [Option.some.injEq] at hrec
      subst hrec
      simp [heq]
    · intro _
      simp [heq]

theorem spawnThinkingPhase_props (d : PreflightData) (gw : GatewayCall → RpcOutcome) (now : Nat)
    (calls : List GatewayCall) (a : Bool) (w : Option String) :
    (∀ rec, (spawnThinkingPhase d gw now calls a w).registered = some rec →
        rec.model = d.resolvedModel ∧
        rec.runId = runIdFromOutcome d.idemUuid (gw (spawnLaunchCall d)) ∧
        rec.endedAt = none ∧
        rec.requesterSessionKey = d.requesterInternalKey) ∧
    ((spawnThinkingPhase d gw now calls a w).result.status = .accepted →
      (spawnThinkingPhase d gw now calls a w).result.runId
          = some (runIdFromOutcome d.idemUuid (gw (spawnLaunchCall d))) ∧
      spawnLaunchCall d ∈ (spawnThinkingPhase d gw now calls a w).calls) := by
  unfold spawnThinkingPhase
  repeat' split
  all_goals first
    | apply spawnLaunchPhase_props
    | simp [rpcErrorResult]

theorem spawnModelPhase_props (d : PreflightData) (gw : GatewayCall → RpcOutcome) (now : Nat)
    (calls : List GatewayCall) :
    (∀ rec, (spawnModelPhase d gw now calls).registered = some rec →
        rec.model = d.resolvedModel ∧
        rec.runId = runIdFromOutcome d.idemUuid (gw (spawnLaunchCall d)) ∧
        rec.endedAt = none ∧
        rec.requesterSessionKey = d.requesterInternalKey) ∧
    ((spawnModelPhase d gw now calls).result.status = .accepted →
      (spawnModelPhase d gw now calls).result.runId
          = some (runIdFromOutcome d.idemUuid (gw (spawnLaunchCall d))) ∧
      spawnLaunchCall d ∈ (spawnModelPhase d gw now calls).calls) := by
  unfold spawnModelPhase
  repeat' split
  all_goals first
    | apply spawnThinkingPhase_props
    | simp [rpcErrorResult]

theorem spawnRpcPhase_props (d : PreflightData) (gw : GatewayCall → RpcOutcome) (now : Nat) :
    (∀ rec, (spawnRpcPhase d gw now).registered = some rec →
        rec.model = d.resolvedModel ∧
        rec.runId = runIdFromOutcome d.idemUuid (gw (spawnLaunchCall d)) ∧
        rec.endedAt = none ∧
        rec.requesterSessionKey = d.requesterInternalKey) ∧
    ((spawnRpcPhase d gw now).result.status = .accepted →
      (spawnRpcPhase d gw now).result.runId
          = some (runIdFromOutcome d.idemUuid (gw (spawnLaunchCall d))) ∧
      spawnLaunchCall d ∈ (spawnRpcPhase d gw now).calls) := by
  unfold spawnRpcPhase
  repeat' split
  all_goals first
    | apply spawnModelPhase_props
    | simp [rpcErrorResult]

theorem spawnRpcPhase_eq_model (d : PreflightData) (gw : GatewayCall → RpcOutcome) (now : Nat)
    (h : ∀ e, gw (GatewayCall.patchDepth d.childSessionKey d.childDepth) ≠ .err e) :
    spawnRpcPhase d gw now = spawnModelPhase d gw now
      [GatewayCall.patchDepth d.childSessionKey d.childDepth] := by
  unfold spawnRpcPhase
  cases hgw : gw (GatewayCall.patchDepth d.childSessionKey d.childDepth) <;>
    first
      | exact absurd hgw (h _)
      | simp [hgw]

theorem spawnLaunchPhase_warning (d : PreflightData) (gw : GatewayCall → RpcOutcome) (now : Nat)
    (calls : List GatewayCall) (a : Bool) (w : Option String)
    (h : (spawnLaunchPhase d gw now calls a w).result.status = .accepted) :
    (spawnLaunchPhase d gw now calls a w).result.warning = w ∧
    (spawnLaunchPhase d gw now calls a w).result.modelApplied
        = (if d.resolvedModel.isSome then some a else none) := by
  unfold spawnLaunchPhase at h ⊢
  split at h
  · simp [rpcErrorResult] at h
  next out heq => simp [heq]

theorem spawnThinkingPhase_warning (d : PreflightData) (gw : GatewayCall → RpcOutcome)
    (now : Nat) (calls : List GatewayCall) (a : Bool) (w : Option String)
    (h : (spawnThinkingPhase d gw now calls a w).result.status = .accepted) :
    (spawnThinkingPhase d gw now calls a w).result.warning = w ∧
    (spawnThinkingPhase d gw now calls a w).result.modelApplied
        = (if d.resolvedModel.isSome then some a else none) := by
  unfold spawnThinkingPhase at h ⊢
  split at h
  · exact spawnLaunchPhase_warning d gw now calls a w h
  · split at h
    · simp [rpcErrorResult] at h
    · exact spawnLaunchPhase_warning d gw now _ a w h

/-! ## Claim theorems -/

/-- C2. Depth admission: whenever the requester resolved spawn depth is
at least `maxSpawnDepth` (configured with default 1), `spawnSubagentDirect`
returns a forbidden result carrying the human-readable depth reason, and
performs no gateway RPC call and no registry insertion. -/
theorem depth_admission_rejects (p : SpawnParams) (ctx : SpawnCtx) (cfg : Cfg)
    (callerDepth : Nat) (reg : Registry) (childUuid idemUuid : String)
    (gw : GatewayCall → RpcOutcome) (now : Nat)
    (hdepth : callerDepth ≥ maxSpawnDepthOf cfg) :
    (spawnSubagentDirect p ctx cfg callerDepth reg childUuid idemUuid gw now).result.status
        = .forbidden ∧
    (spawnSubagentDirect p ctx cfg callerDepth reg childUuid idemUuid gw now).result.error
        = some (depthErrorText callerDepth (maxSpawnDepthOf cfg)) ∧
    (spawnSubagentDirect p ctx cfg callerDepth reg childUuid idemUuid gw now).calls = [] ∧
    (spawnSubagentDirect p ctx cfg callerDepth reg childUuid idemUuid gw now).registered
        = none ∧
    (cfg.maxSpawnDepth = none → maxSpawnDepthOf cfg = 1) := by
  have h5 : cfg.maxSpawnDepth = none → maxSpawnDepthOf cfg = 1 := by
    intro h
    simp [maxSpawnDepthOf, h]
  refine ⟨?_, ?_, ?_, ?_, h5⟩ <;>
    simp [spawnSubagentDirect, spawnPreflight, hdepth]

/-- C3. Fan-out admission: when the requester active-children count is
at least `maxChildrenPerAgent` (configured with default 5), the spawn is
forbidden with no gateway call and no registry insertion; terminating one
active child of the requester (in a registry with pairwise-distinct run
ids) decrements the active count by one; and whenever the depth check
passes and the active count is below the limit, the spawn proceeds past
the fan-out check to the allowlist stage. -/
theorem fanout_admission (p : SpawnParams) (ctx : SpawnCtx) (cfg : Cfg)
    (callerDepth : Nat) (reg : Registry) (childUuid idemUuid : String)
    (gw : GatewayCall → RpcOutcome) (now : Nat) :
    (countActiveRunsForSession (requesterInternalKeyOf cfg ctx) reg ≥ maxChildrenOf cfg →
      (spawnSubagentDirect p ctx cfg callerDepth reg childUuid idemUuid gw now).result.status
          = .forbidden ∧
      (spawnSubagentDirect p ctx cfg callerDepth reg childUuid idemUuid gw now).calls = [] ∧
      (spawnSubagentDirect p ctx cfg callerDepth reg childUuid idemUuid gw now).registered
          = none) ∧
    ((reg.map (fun r2 => r2.runId)).Nodup →
      ∀ r ∈ reg, r.endedAt = none → r.requesterSessionKey = requesterInternalKeyOf cfg ctx →
      ∀ reason tnow,
        countActiveRunsForSession (requesterInternalKeyOf cfg ctx)
            (markSubagentRunTerminated r.runId reason tnow reg) + 1 =
          countActiveRunsForSession (requesterInternalKeyOf cfg ctx) reg) ∧
    (callerDepth < maxSpawnDepthOf cfg →
      countActiveRunsForSession (requesterInternalKeyOf cfg ctx) reg < maxChildrenOf cfg →
      spawnPreflight p ctx cfg callerDepth reg childUuid idemUuid =
        spawnPreflightAllowStage p ctx cfg callerDepth (requesterInternalKeyOf cfg ctx)
          childUuid idemUuid) ∧
    (cfg.maxChildrenPerAgent = none → maxChildrenOf cfg = 5) := by
  refine ⟨?_, ?_, ?_, ?_⟩
  · intro hcount
    by_cases hd : callerDepth ≥ maxSpawnDepthOf cfg
    · refine ⟨?_, ?_, ?_⟩ <;> simp [spawnSubagentDirect, spawnPreflight, hd]
    · refine ⟨?_, ?_, ?_⟩ <;> simp [spawnSubagentDirect, spawnPreflight, hd, hcount]
  · intro hnodup r hr hend hreq reason tnow
    exact countActive_after_terminate (requesterInternalKeyOf cfg ctx) r.runId reason tnow
      reg hnodup r hr rfl hend hreq
  · intro hd hcount
    unfold spawnPreflight
    rw [if_neg (by omega), if_neg (by omega)]
  · intro h
    simp [maxChildrenOf, h]

/-- Witness for C3: a requester with 5 active children is rejected; after
terminating one of them the count is 4 and the spawn passes the fan-out
check. -/
theorem fanout_admission_witness :
    (countActiveRunsForSession "agent:main:chat"
        (fanoutWitnessRegistry) ≥ maxChildrenOf {} ∧
      (spawnSubagentDirect { task := "t" } { agentSessionKey := some "agent:main:chat" } {}
          0 fanoutWitnessRegistry "u1" "u2" (fun _ => .okUnit) 0).result.status
        = .forbidden) ∧
    (countActiveRunsForSession "agent:main:chat"
        (markSubagentRunTerminated "r1" "killed" 99 fanoutWitnessRegistry) + 1 =
      countActiveRunsForSession "agent:main:chat" fanoutWitnessRegistry) := by
  refine ⟨⟨by decide, ?_⟩, ?_⟩
  · exact ((fanout_admission { task := "t" } { agentSessionKey := some "agent:main:chat" } {}
      0 fanoutWitnessRegistry "u1" "u2" (fun _ => .okUnit) 0).1 (by decide)).1
  · exact (fanout_admission { task := "t" } { agentSessionKey := some "agent:main:chat" } {}
      0 fanoutWitnessRegistry "u1" "u2" (fun _ => .okUnit) 0).2.1 (by decide)
      (fanoutWitnessRun "r1") (by decide) (by decide) (by decide) "killed" 99

/-- C4. Allowlist enforcement: with depth and fan-out admission passing,
a spawn whose normalized target agent differs from the requester agent is
forbidden (with no gateway call and no registry insertion) exactly unless
the requester agent allowlist holds a wildcard entry or contains the
target id (case-insensitively, after normalization) — that condition is
`allowlistPermits`; and a spawn targeting the requester own agent is
never rejected by the allowlist (the result is never forbidden). -/
theorem allowlist_enforcement (p : SpawnParams) (ctx : SpawnCtx) (cfg : Cfg)
    (callerDepth : Nat) (reg : Registry) (childUuid idemUuid : String)
    (gw : GatewayCall → RpcOutcome) (now : Nat)
    (hd : callerDepth < maxSpawnDepthOf cfg)
    (hc : countActiveRunsForSession (requesterInternalKeyOf cfg ctx) reg < maxChildrenOf cfg) :
    (spawnTargetAgentId p cfg ctx ≠ spawnRequesterAgentId cfg ctx →
      allowlistPermits cfg (spawnRequesterAgentId cfg ctx) (spawnTargetAgentId p cfg ctx)
          = false →
      (spawnSubagentDirect p ctx cfg callerDepth reg childUuid idemUuid gw now).result.status
          = .forbidden ∧
      (spawnSubagentDirect p ctx cfg callerDepth reg childUuid idemUuid gw now).result.error
          = some (allowlistErrorText cfg (spawnRequesterAgentId cfg ctx)) ∧
      (spawnSubagentDirect p ctx cfg callerDepth reg childUuid idemUuid gw now).calls = [] ∧
      (spawnSubagentDirect p ctx cfg callerDepth reg childUuid idemUuid gw now).registered
          = none) ∧
    (allowlistPermits cfg (spawnRequesterAgentId cfg ctx) (spawnTargetAgentId p cfg ctx)
          = true →
      (spawnSubagentDirect p ctx cfg callerDepth reg childUuid idemUuid gw now).result.status
          ≠ .forbidden) ∧
    (spawnTargetAgentId p cfg ctx = spawnRequesterAgentId cfg ctx →
      (spawnSubagentDirect p ctx cfg callerDepth reg childUuid idemUuid gw now).result.status
          ≠ .forbidden) := by
  have hpre : spawnPreflight p ctx cfg callerDepth reg childUuid idemUuid =
      spawnPreflightAllowStage p ctx cfg callerDepth (requesterInternalKeyOf cfg ctx)
        childUuid idemUuid := by
    unfold spawnPreflight
    rw [if_neg (by omega), if_neg (by omega)]
  have hnotfb : ∀ h2 : Except SpawnResult PreflightData,
      (∀ r, h2 = .error r → r.status = SpawnStatus.error) →
      spawnPreflightAllowStage p ctx cfg callerDepth (requesterInternalKeyOf cfg ctx)
        childUuid idemUuid = h2 →
      (spawnSubagentDirect p ctx cfg callerDepth reg childUuid idemUuid gw now).result.status
          ≠ .forbidden := by
    intro h2 herr heq
    unfold spawnSubagentDirect
    rw [hpre, heq]
    cases h2 with
    | error r =>
      have := herr r rfl
      simp [this]
    | ok d => exact spawnRpcPhase_not_forbidden d gw now
  refine ⟨?_, ?_, ?_⟩
  · intro hne hperm
    simp only [spawnTargetAgentId, spawnRequesterAgentId] at hne hperm
    unfold spawnSubagentDirect
    rw [hpre]
    unfold spawnPreflightAllowStage
    rw [if_pos (by
      refine ⟨hne, ?_⟩
      simp [hperm])]
    simp [spawnRequesterAgentId]
  · intro hperm
    simp only [spawnTargetAgentId, spawnRequesterAgentId] at hperm
    apply hnotfb (spawnPreflightAllowStage p ctx cfg callerDepth
      (requesterInternalKeyOf cfg ctx) childUuid idemUuid) _ rfl
    intro r hr
    unfold spawnPreflightAllowStage at hr
    rw [if_neg (by
      intro hand
      rw [hperm] at hand
      simp at hand)] at hr
    exact resolveStage_error_status p cfg callerDepth (requesterInternalKeyOf cfg ctx)
      (targetAgentIdOf p (requesterAgentIdOf ctx (requesterInternalKeyOf cfg ctx)))
      childUuid idemUuid r hr
  · intro heqagents
    apply hnotfb (spawnPreflightAllowStage p ctx cfg callerDepth
      (requesterInternalKeyOf cfg ctx) childUuid idemUuid) _ rfl
    intro r hr
    unfold spawnPreflightAllowStage at hr
    rw [if_neg (by
      intro hand
      exact hand.1 heqagents)] at hr
    exact resolveStage_error_status p cfg callerDepth (requesterInternalKeyOf cfg ctx)
      (targetAgentIdOf p (requesterAgentIdOf ctx (requesterInternalKeyOf cfg ctx)))
      childUuid idemUuid r hr

/-- Witness for C4: from requester agent `main`, spawning agent `other`
with allowlist `["alpha"]` is forbidden, while with allowlist `["*"]` the
result is not forbidden. -/
theorem allowlist_enforcement_witness :
    ((spawnSubagentDirect { task := "t", agentId := some "other" }
        { agentSessionKey := some "agent:main:chat" } (allowWitnessCfg ["alpha"])
        0 [] "u1" "u2" (fun _ => .okUnit) 0).result.status = .forbidden) ∧
    ((spawnSubagentDirect { task := "t", agentId := some "other" }
        { agentSessionKey := some "agent:main:chat" } (allowWitnessCfg ["*"])
        0 [] "u1" "u2" (fun _ => .okUnit) 0).result.status ≠ .forbidden) := by
  constructor
  · exact ((allowlist_enforcement { task := "t", agentId := some "other" }
      { agentSessionKey := some "agent:main:chat" } (allowWitnessCfg ["alpha"])
      0 [] "u1" "u2" (fun _ => .okUnit) 0 (by decide) (by decide)).1
      (by decide) (by decide)).1
  · exact (allowlist_enforcement { task := "t", agentId := some "other" }
      { agentSessionKey := some "agent:main:chat" } (allowWitnessCfg ["*"])
      0 [] "u1" "u2" (fun _ => .okUnit) 0 (by decide) (by decide)).2.1 (by decide)

/-- Witness for C2 at a concrete configuration of depth 1 and caller
depth 1. -/
theorem depth_admission_rejects_witness :
    (1 : Nat) ≥ maxSpawnDepthOf {} ∧
    (spawnSubagentDirect { task := "t" } {} {} 1 [] "u1" "u2" (fun _ => .okUnit) 0).result.status
      = .forbidden := by
  refine ⟨by decide, ?_⟩
  exact (depth_admission_rejects { task := "t" } {} {} 1 [] "u1" "u2"
    (fun _ => .okUnit) 0 (by decide)).1

/-- C5. Model resolution priority: the spawn engine resolved model
equals the spec-side "first non-empty candidate after trimming" over the
ordered candidate list (explicit override, target agent subagents model,
global subagents default, global primary default, runtime default), and
every registered run record carries exactly that resolved model. -/
theorem model_resolution_priority (p : SpawnParams) (ctx : SpawnCtx) (cfg : Cfg)
    (callerDepth : Nat) (reg : Registry) (childUuid idemUuid : String)
    (gw : GatewayCall → RpcOutcome) (now : Nat) (targetAgentId : String) :
    (resolvedModelOf p cfg targetAgentId
        = specEffectiveModel (modelCandidatesOf p cfg targetAgentId)) ∧
    (∀ rec,
      (spawnSubagentDirect p ctx cfg callerDepth reg childUuid idemUuid gw now).registered
          = some rec →
      rec.model = resolvedModelOf p cfg (spawnTargetAgentId p cfg ctx)) := by
  constructor
  · cases h1 : normalizeModelSelection (p.model.map ModelSetting.str) <;>
    cases h2 : normalizeModelSelection
        ((resolveAgentSubagentsCfg cfg targetAgentId).bind (fun sc => sc.model)) <;>
    cases h3 : normalizeModelSelection cfg.defaultsSubagentsModel <;>
    cases h4 : normalizeModelSelection cfg.defaultsModelPrimary <;>
    cases h5 : normalizeModelSelection (some (.str ((cfg.runtimeDefault targetAgentId).1 ++
        "/" ++ (cfg.runtimeDefault targetAgentId).2))) <;>
    simp [resolvedModelOf, specEffectiveModel, modelCandidatesOf, List.filterMap_cons,
      specTrimCandidate_eq_normalize, h1, h2, h3, h4, h5]
  · intro rec hrec
    unfold spawnSubagentDirect at hrec
    cases hpre : spawnPreflight p ctx cfg callerDepth reg childUuid idemUuid with
    | error r =>
      rw [hpre] at hrec
      simp at hrec
    | ok d =>
      rw [hpre] at hrec
      have hd := spawnPreflight_ok p ctx cfg callerDepth reg childUuid idemUuid d hpre
      have h1 := ((spawnRpcPhase_props d gw now).1 rec hrec).1
      rw [h1, hd]
      rfl

/-- Witness for C5: a global subagent default model of `" m1 "` is trimmed
to `m1` and lands on the registered record. -/
theorem model_resolution_priority_witness :
    (spawnSubagentDirect { task := "t" } { agentSessionKey := some "agent:main:chat" }
        modelWitnessCfg 0 [] "u1" "u2" (fun _ => .okRun (some "run-9")) 5).registered
      = some modelWitnessRec ∧
    modelWitnessRec.model = resolvedModelOf { task := "t" } modelWitnessCfg
      (spawnTargetAgentId { task := "t" } modelWitnessCfg
        { agentSessionKey := some "agent:main:chat" }) := by
  have h1 : (spawnSubagentDirect { task := "t" } { agentSessionKey := some "agent:main:chat" }
      modelWitnessCfg 0 [] "u1" "u2" (fun _ => .okRun (some "run-9")) 5).registered
        = some modelWitnessRec := by decide
  exact ⟨h1, (model_resolution_priority { task := "t" }
    { agentSessionKey := some "agent:main:chat" } modelWitnessCfg 0 [] "u1" "u2"
    (fun _ => .okRun (some "run-9")) 5 "main").2 modelWitnessRec h1⟩

/-- C6. Thinking-level validation is pre-side-effect: when admission
passes and a thinking token is present (explicit override or configured
default) but does not normalize to a known level, the spawn returns a
validation error whose message spells out the set of valid levels, with
no gateway RPC call and no registry insertion. -/
theorem thinking_validation_pre_side_effect (p : SpawnParams) (ctx : SpawnCtx) (cfg : Cfg)
    (callerDepth : Nat) (reg : Registry) (childUuid idemUuid : String)
    (gw : GatewayCall → RpcOutcome) (now : Nat) (raw : String)
    (hd : callerDepth < maxSpawnDepthOf cfg)
    (hc : countActiveRunsForSession (requesterInternalKeyOf cfg ctx) reg < maxChildrenOf cfg)
    (hallow : spawnTargetAgentId p cfg ctx = spawnRequesterAgentId cfg ctx ∨
      allowlistPermits cfg (spawnRequesterAgentId cfg ctx) (spawnTargetAgentId p cfg ctx)
        = true)
    (hcand : thinkingCandidateOf p cfg (spawnTargetAgentId p cfg ctx) = some raw)
    (hinv : normalizeThinkLevel raw = none) :
    (spawnSubagentDirect p ctx cfg callerDepth reg childUuid idemUuid gw now).result.status
        = .error ∧
    (spawnSubagentDirect p ctx cfg callerDepth reg childUuid idemUuid gw now).result.error
        = some (invalidThinkingText raw
            (resolvedModelOf p cfg (spawnTargetAgentId p cfg ctx))) ∧
    (invalidThinkingText raw (resolvedModelOf p cfg (spawnTargetAgentId p cfg ctx)) =
      "Invalid thinking level \"" ++ raw ++ "\". Use one of: " ++
        String.intercalate ", " validThinkLevels ++ ".") ∧
    (spawnSubagentDirect p ctx cfg callerDepth reg childUuid idemUuid gw now).calls = [] ∧
    (spawnSubagentDirect p ctx cfg callerDepth reg childUuid idemUuid gw now).registered
        = none := by
  simp only [spawnTargetAgentId, spawnRequesterAgentId] at hallow hcand
  have hstage : spawnPreflight p ctx cfg callerDepth reg childUuid idemUuid =
      .error { status := .error,
               error := some (invalidThinkingText raw
                 (resolvedModelOf p cfg
                   (targetAgentIdOf p (requesterAgentIdOf ctx
                     (requesterInternalKeyOf cfg ctx))))) } := by
    unfold spawnPreflight
    rw [if_neg (by omega), if_neg (by omega)]
    unfold spawnPreflightAllowStage
    rw [if_neg (by
      intro hand
      rcases hallow with heq | hperm
      · exact hand.1 heq
      · rw [hperm] at hand
        simp at hand)]
    unfold spawnPreflightResolveStage
    simp [hcand, hinv]
  have hout : spawnSubagentDirect p ctx cfg callerDepth reg childUuid idemUuid gw now =
      { result := { status := .error,
                    error := some (invalidThinkingText raw
                      (resolvedModelOf p cfg (spawnTargetAgentId p cfg ctx))) },
        calls := [], registered := none } := by
    unfold spawnSubagentDirect
    rw [hstage]
    rfl
  rw [hout]
  refine ⟨rfl, rfl, ?_, rfl, rfl⟩
  simp [invalidThinkingText, formatThinkingLevels]

/-- Witness for C6: an unknown thinking token `banana` is rejected before
any RPC. -/
theorem thinking_validation_witness :
    (spawnSubagentDirect { task := "t", thinking := some "banana" }
        { agentSessionKey := some "agent:main:chat" } {} 0 [] "u1" "u2"
        (fun _ => .okUnit) 0).result.status = .error ∧
    (spawnSubagentDirect { task := "t", thinking := some "banana" }
        { agentSessionKey := some "agent:main:chat" } {} 0 [] "u1" "u2"
        (fun _ => .okUnit) 0).calls = [] := by
  have h := thinking_validation_pre_side_effect { task := "t", thinking := some "banana" }
    { agentSessionKey := some "agent:main:chat" } {} 0 [] "u1" "u2" (fun _ => .okUnit) 0
    "banana" (by decide) (by decide) (Or.inl (by decide)) (by decide) (by decide)
  exact ⟨h.1, h.2.2.2.1⟩

/-- C7. Recoverable model patch: with the spawn reaching the model patch
(preflight succeeded, depth patch did not throw) and the patch for the
resolved model failing, a message mentioning "invalid model" or "model
not allowed" lets the spawn continue — an eventually accepted result
carries the message only as its warning, with `modelApplied` false —
while any other failure aborts with an error result that still returns
the child session key and registers nothing. -/
theorem recoverable_model_patch (p : SpawnParams) (ctx : SpawnCtx) (cfg : Cfg)
    (callerDepth : Nat) (reg : Registry) (childUuid idemUuid : String)
    (gw : GatewayCall → RpcOutcome) (now : Nat) (d : PreflightData) (m msg : String)
    (hpre : spawnPreflight p ctx cfg callerDepth reg childUuid idemUuid = .ok d)
    (hm : d.resolvedModel = some m)
    (hdepth : ∀ e, gw (GatewayCall.patchDepth d.childSessionKey d.childDepth) ≠ .err e)
    (hpatch : gw (GatewayCall.patchModel d.childSessionKey m) = .err msg) :
    (recoverableModelError msg = true →
      spawnSubagentDirect p ctx cfg callerDepth reg childUuid idemUuid gw now =
        spawnThinkingPhase d gw now
          [GatewayCall.patchDepth d.childSessionKey d.childDepth,
           GatewayCall.patchModel d.childSessionKey m] false (some msg) ∧
      ((spawnSubagentDirect p ctx cfg callerDepth reg childUuid idemUuid gw now).result.status
          = .accepted →
        (spawnSubagentDirect p ctx cfg callerDepth reg childUuid idemUuid
            gw now).result.warning = some msg ∧
        (spawnSubagentDirect p ctx cfg callerDepth reg childUuid idemUuid
            gw now).result.modelApplied = some false)) ∧
    (recoverableModelError msg = false →
      (spawnSubagentDirect p ctx cfg callerDepth reg childUuid idemUuid gw now).result
          = rpcErrorResult msg d.childSessionKey none ∧
      (spawnSubagentDirect p ctx cfg callerDepth reg childUuid idemUuid gw now).result.error
          = some msg ∧
      (spawnSubagentDirect p ctx cfg callerDepth reg childUuid idemUuid
          gw now).result.childSessionKey = some d.childSessionKey ∧
      (spawnSubagentDirect p ctx cfg callerDepth reg childUuid idemUuid gw now).registered
          = none) := by
  have hout : spawnSubagentDirect p ctx cfg callerDepth reg childUuid idemUuid gw now =
      spawnModelPhase d gw now [GatewayCall.patchDepth d.childSessionKey d.childDepth] := by
    unfold spawnSubagentDirect
    rw [hpre]
    exact spawnRpcPhase_eq_model d gw now hdepth
  constructor
  · intro hrec
    have hout2 : spawnSubagentDirect p ctx cfg callerDepth reg childUuid idemUuid gw now =
        spawnThinkingPhase d gw now
          [GatewayCall.patchDepth d.childSessionKey d.childDepth,
           GatewayCall.patchModel d.childSessionKey m] false (some msg) := by
      rw [hout]
      unfold spawnModelPhase
      rw [hm]
      simp only [hpatch, hrec, if_true]
      rfl
    refine ⟨hout2, ?_⟩
    intro hacc
    rw [hout2] at hacc ⊢
    exact spawnThinkingPhase_warning d gw now _ false (some msg) hacc |>.imp id
      (fun h2 => by rw [h2, hm]; rfl)
  · intro hrec
    have hout2 : spawnSubagentDirect p ctx cfg callerDepth reg childUuid idemUuid gw now =
        { result := rpcErrorResult msg d.childSessionKey none,
          calls := [GatewayCall.patchDepth d.childSessionKey d.childDepth,
                    GatewayCall.patchModel d.childSessionKey m],
          registered := none } := by
      rw [hout]
      unfold spawnModelPhase
      rw [hm]
      simp only [hpatch, hrec]
      simp
    rw [hout2]
    exact ⟨rfl, rfl, rfl, rfl⟩

/-- Witness for C7: a model patch failing with "invalid model: nope" is
surfaced only as the warning of the accepted result. -/
theorem recoverable_model_patch_witness :
    (spawnSubagentDirect { task := "t" } { agentSessionKey := some "agent:main:chat" }
        modelWitnessCfg 0 [] "u1" "u2" recoverableGw 5).result.warning
      = some "invalid model: nope" ∧
    (spawnSubagentDirect { task := "t" } { agentSessionKey := some "agent:main:chat" }
        modelWitnessCfg 0 [] "u1" "u2" recoverableGw 5).result.modelApplied
      = some false := by
  have happ := (recoverable_model_patch { task := "t" }
    { agentSessionKey := some "agent:main:chat" } modelWitnessCfg 0 [] "u1" "u2"
    recoverableGw 5
    (preflightDataOf { task := "t" } { agentSessionKey := some "agent:main:chat" }
      modelWitnessCfg 0 "u1" "u2")
    "m1" "invalid model: nope" (by rfl) (by decide)
    (fun e h => RpcOutcome.noConfusion h) (by decide)).1 (by decide)
  exact happ.2 (by decide)

/-- C10. Non-empty run ids: a fresh idempotency key is drawn before the
launch and adopted as the run id whenever the gateway `agent` response
lacks a non-empty string run id; so with a non-empty key, every accepted
spawn result and every registered record carries a non-empty run id, and
the send/steer path launched run id is likewise non-empty. -/
theorem run_id_nonempty (p : SpawnParams) (ctx : SpawnCtx) (cfg : Cfg)
    (callerDepth : Nat) (reg : Registry) (childUuid idemUuid : String)
    (gw : GatewayCall → RpcOutcome) (now : Nat)
    (hid : idemUuid ≠ "") :
    (∀ rec,
      (spawnSubagentDirect p ctx cfg callerDepth reg childUuid idemUuid gw now).registered
          = some rec → rec.runId ≠ "") ∧
    ((spawnSubagentDirect p ctx cfg callerDepth reg childUuid idemUuid gw now).result.status
        = .accepted →
      ∃ r, (spawnSubagentDirect p ctx cfg callerDepth reg childUuid idemUuid
          gw now).result.runId = some r ∧ r ≠ "") ∧
    (runIdFromOutcome idemUuid (.okRun none) = idemUuid ∧
     runIdFromOutcome idemUuid (.okRun (some "")) = idemUuid ∧
     runIdFromOutcome idemUuid .okUnit = idemUuid ∧
     ∀ s, s ≠ "" → runIdFromOutcome idemUuid (.okRun (some s)) = s) ∧
    (∀ (steerRequested : Bool) (reg2 : Registry) (entry : RunRecord) (message : String)
        (sid : Option String) (idem2 : String) (gw2 : GatewayCall → RpcOutcome) (now2 : Nat)
        (r : String), idem2 ≠ "" →
      (sendOrSteerOnResolved steerRequested reg2 entry message sid idem2 gw2
          now2).launchedRunId = some r → r ≠ "") := by
  refine ⟨?_, ?_, ?_, ?_⟩
  · intro rec hrec
    unfold spawnSubagentDirect at hrec
    cases hpre : spawnPreflight p ctx cfg callerDepth reg childUuid idemUuid with
    | error r =>
      rw [hpre] at hrec
      simp at hrec
    | ok d =>
      rw [hpre] at hrec
      have hd := spawnPreflight_ok p ctx cfg callerDepth reg childUuid idemUuid d hpre
      have h1 := ((spawnRpcPhase_props d gw now).1 rec hrec).2.1
      rw [h1]
      apply runIdFromOutcome_ne
      rw [hd]
      exact hid
  · intro hacc
    unfold spawnSubagentDirect at hacc ⊢
    cases hpre : spawnPreflight p ctx cfg callerDepth reg childUuid idemUuid with
    | error r =>
      try rw [hpre] at hacc
      have hacc2 : r.status = SpawnStatus.accepted := hacc
      rcases spawnPreflight_error_status p ctx cfg callerDepth reg childUuid idemUuid r hpre
        with h2 | h2 <;>
        · rw [h2] at hacc2
          exact absurd hacc2 (by simp)
    | ok d =>
      try rw [hpre] at hacc
      have hacc2 : (spawnRpcPhase d gw now).result.status = SpawnStatus.accepted := hacc
      have hd := spawnPreflight_ok p ctx cfg callerDepth reg childUuid idemUuid d hpre
      have h1 := ((spawnRpcPhase_props d gw now).2 hacc2).1
      refine ⟨runIdFromOutcome d.idemUuid (gw (spawnLaunchCall d)), h1, ?_⟩
      apply runIdFromOutcome_ne
      rw [hd]
      exact hid
  · refine ⟨rfl, rfl, rfl, ?_⟩
    intro s hs
    simp [runIdFromOutcome, hs]
  · intro steerRequested reg2 entry message sid idem2 gw2 now2 r hid2 hr
    unfold sendOrSteerOnResolved at hr
    split at hr
    · simp at hr
    · split at hr
      · unfold steerPath at hr
        split at hr
        · simp at hr
        · rw [Option.some.injEq] at hr
          subst hr
          exact runIdFromOutcome_ne idem2 hid2 _
      · unfold sendPath at hr
        split at hr
        · simp at hr
        · unfold sendWaitPhase at hr
          repeat' split at hr
          all_goals
            rw [Option.some.injEq] at hr
          all_goals
            subst hr
          all_goals
            exact runIdFromOutcome_ne idem2 hid2 _

/-- Witness for C10: with a gateway response that carries no run id, the
accepted result adopts the idempotency key `u2` as its run id, and every
registered record has a non-empty run id. -/
theorem run_id_nonempty_witness :
    "u2" ≠ "" ∧
    (spawnSubagentDirect { task := "t" } { agentSessionKey := some "agent:main:chat" } {}
        0 [] "u1" "u2" (fun _ => .okRun none) 0).result.runId = some "u2" ∧
    (∀ rec,
      (spawnSubagentDirect { task := "t" } { agentSessionKey := some "agent:main:chat" } {}
          0 [] "u1" "u2" (fun _ => .okRun none) 0).registered = some rec →
      rec.runId ≠ "") := by
  refine ⟨by decide, by decide, ?_⟩
  exact (run_id_nonempty { task := "t" } { agentSessionKey := some "agent:main:chat" } {}
    0 [] "u1" "u2" (fun _ => .okRun none) 0 (by decide)).1

/-- C8. Target-index/list consistency: the ordering `resolveSubagentTarget`
indexes (active newest-first, then recently ended newest-first) is the
ordering the `list` action renders; a positive index `k` within range
resolves to the record of the `k`-th numbered line (1-based), and an
out-of-range index yields an error result, not a crash. -/
theorem target_index_list_consistency (runs : List RunRecord) (now : Nat) (t : String)
    (k : Nat) (hparse : strToNatQ (strTrim t) = some k) :
    (numericOrderOf runs now = listDisplayOrder runs now) ∧
    (∀ i r, (listDisplayOrder runs now).get? i = some r →
      (listNumberedEntries runs now).get? i = some (i + 1, r)) ∧
    (1 ≤ k → k ≤ (listDisplayOrder runs now).length →
      resolveSubagentTarget runs (some t) now =
        { entry := (listDisplayOrder runs now).get? (k - 1), error := none } ∧
      ((listDisplayOrder runs now).get? (k - 1)).isSome = true) ∧
    (k > (listDisplayOrder runs now).length →
      resolveSubagentTarget runs (some t) now =
        { entry := none, error := some ("Invalid subagent index: " ++ strTrim t) }) := by
  have hne : ¬(strTrim t = "") := by
    intro h
    rw [h] at hparse
    have h0 : strToNatQ "" = none := by decide
    rw [h0] at hparse
    exact Option.noConfusion hparse
  have hnl : ¬(strTrim t = "last") := by
    intro h
    rw [h] at hparse
    have h0 : strToNatQ "last" = none := by decide
    rw [h0] at hparse
    exact Option.noConfusion hparse
  have hknum : isNumericToken (strTrim t) = true := by
    simp [isNumericToken, hparse]
  have hres : resolveSubagentTarget runs (some t) now =
      (if k = 0 ∨ k > (listDisplayOrder runs now).length then
        { entry := none, error := some ("Invalid subagent index: " ++ strTrim t) }
      else { entry := (listDisplayOrder runs now).get? (k - 1), error := none }) := by
    unfold resolveSubagentTarget
    simp only [Option.getD_some]
    rw [if_neg hne, if_neg hnl]
    simp only [hknum, hparse, Option.getD_some, if_true]
    rfl
  refine ⟨rfl, ?_, ?_, ?_⟩
  · intro i r h
    rw [List.get?_eq_getElem?] at h
    simp [listNumberedEntries, List.get?_map, List.get?_enum, h]
  · intro h1 hk
    rw [hres, if_neg (by omega)]
    refine ⟨rfl, ?_⟩
    rw [List.get?_eq_get (by omega)]
    rfl
  · intro hk
    rw [hres, if_pos (Or.inr hk)]

/-- Witness for C8: index token `1` resolves to the run on the first
numbered line of the list rendering of the same run set. -/
theorem target_index_list_consistency_witness :
    strToNatQ (strTrim "1") = some 1 ∧
    resolveSubagentTarget ixRuns (some "1") 400 =
      { entry := (listDisplayOrder ixRuns 400).get? 0, error := none } ∧
    (listNumberedEntries ixRuns 400).get? 0 =
      some (1, { runId := "rb", childSessionKey := "agent:beta:subagent:b",
                 requesterSessionKey := "agent:main:chat", task := "task b",
                 startedAt := some 200 }) := by
  refine ⟨by decide, ?_, by decide⟩
  exact ((target_index_list_consistency ixRuns 400 "1" 1 (by decide)).2.2.1
    (by decide) (by decide)).1

/-- Counterexample for C9 as stated: invoking `log` with only the target
token `3` (no limit argument supplied) calls `chat.history` with limit 3,
not the default 20 — the limit scan picks up the numeric target token. -/
theorem log_limit_counterexample :
    (logAction ixRuns ["3"] 400 historyGw).call
        = some (GatewayCall.chatHistory "agent:beta:subagent:c" 3) ∧
    (∀ limit, (logAction ixRuns ["3"] 400 historyGw).call
        = some (GatewayCall.chatHistory "agent:beta:subagent:c" limit) → limit ≠ 20) := by
  refine ⟨by decide, ?_⟩
  intro limit h
  have h3 : (logAction ixRuns ["3"] 400 historyGw).call
      = some (GatewayCall.chatHistory "agent:beta:subagent:c" 3) := by decide
  rw [h3] at h
  rw [Option.some.injEq] at h
  cases h
  decide

/-- C9 (amended). Log limit bounds: the `chat.history` limit is the first
all-digit token among the action argument tokens (the target token
included), clamped to at least 1 and at most 200, and 20 when no such
token exists; tool messages are filtered out of the rendered output
unless a "tools" token is present. -/
theorem log_limit_bounds (runs : List RunRecord) (restTokens : List String) (now : Nat)
    (gw : GatewayCall → RpcOutcome) :
    (1 ≤ logLimitOf restTokens ∧ logLimitOf restTokens ≤ 200) ∧
    (restTokens.find? isNumericToken = none → logLimitOf restTokens = 20) ∧
    (∀ tok v, restTokens.find? isNumericToken = some tok → strToNatQ tok = some v →
      logLimitOf restTokens = min 200 (max 1 v)) ∧
    (∀ target r, restTokens.head? = some target →
      (resolveSubagentTarget runs (some target) now).entry = some r →
      (logAction runs restTokens now gw).call
          = some (GatewayCall.chatHistory r.childSessionKey (logLimitOf restTokens)) ∧
      (logAction runs restTokens now gw).rendered
          = some (if logIncludeToolsOf restTokens then
              historyMessagesOf (gw (GatewayCall.chatHistory r.childSessionKey
                (logLimitOf restTokens)))
            else stripToolMessages (historyMessagesOf (gw (GatewayCall.chatHistory
                r.childSessionKey (logLimitOf restTokens)))))) := by
  refine ⟨?_, ?_, ?_, ?_⟩
  · unfold logLimitOf
    split
    · constructor <;> omega
    · constructor <;> omega
  · intro h
    unfold logLimitOf
    rw [h]
  · intro tok v hfind hval
    unfold logLimitOf
    rw [hfind]
    show min 200 (max 1 ((strToNatQ tok).getD 0)) = min 200 (max 1 v)
    rw [hval]
    rfl
  · intro target r hhead hentry
    unfold logAction
    rw [hhead]
    simp [hentry]

/-- Witness for C9 (amended): with tokens `["2", "50"]` the first numeric
token is the target `2`, so the limit is 2, and tool messages are
filtered from the rendering. -/
theorem log_limit_bounds_witness :
    (logAction ixRuns ["2", "50"] 400 historyGw).call
        = some (GatewayCall.chatHistory "agent:beta:subagent:a" 2) ∧
    (logAction ixRuns ["2", "50"] 400 historyGw).rendered
        = some [{ role := "assistant", text := "hello" }] := by
  have h := (log_limit_bounds ixRuns ["2", "50"] 400 historyGw).2.2.2 "2"
    { runId := "ra", childSessionKey := "agent:beta:subagent:a",
      requesterSessionKey := "agent:main:chat", task := "task a", startedAt := some 100 }
    (by decide) (by decide)
  refine ⟨?_, ?_⟩
  · rw [h.1]
    decide
  · rw [h.2]
    decide

/-- C1. Steer rollback: on an in-flight run, the steer handler first
marks the run for steer-restart; if the relaunch RPC then fails, it
clears the steer-restart flag and returns a failure reply, and
`replaceSubagentRunAfterSteer` is not called — the run record stays
tracked (its run ids are unchanged and the flag ends up false, so its
real completion is not suppressed); only on relaunch success is the run
replaced by the new run id. -/
theorem steer_rollback (reg : Registry) (entry : RunRecord) (message : String)
    (sid : Option String) (idemUuid : String) (gw : GatewayCall → RpcOutcome) (now : Nat)
    (hactive : entry.endedAt = none) :
    (∀ m, gw (steerLaunchCall entry message sid idemUuid) = .err m →
      (sendOrSteerOnResolved true reg entry message sid idemUuid gw now).ops
          = [RegOp.markSteer entry.runId, RegOp.clearSteer entry.runId] ∧
      (∀ prevId nextId, RegOp.replaceAfterSteer prevId nextId ∉
        (sendOrSteerOnResolved true reg entry message sid idemUuid gw now).ops) ∧
      (sendOrSteerOnResolved true reg entry message sid idemUuid gw now).registry
          = reg.map (fun r => if r.runId == entry.runId then
              { r with steerRestart := false } else r) ∧
      (sendOrSteerOnResolved true reg entry message sid idemUuid gw now).registry.map
          (fun r => r.runId) = reg.map (fun r => r.runId) ∧
      (sendOrSteerOnResolved true reg entry message sid idemUuid gw now).reply
          = "send failed: " ++ m) ∧
    (∀ out2, gw (steerLaunchCall entry message sid idemUuid) = out2 →
      (∀ m, out2 ≠ .err m) →
      (sendOrSteerOnResolved true reg entry message sid idemUuid gw now).ops
          = [RegOp.markSteer entry.runId,
             RegOp.replaceAfterSteer entry.runId (runIdFromOutcome idemUuid out2)] ∧
      (sendOrSteerOnResolved true reg entry message sid idemUuid gw now).registry
          = replaceSubagentRunAfterSteer entry.runId (runIdFromOutcome idemUuid out2)
              entry entry.runTimeoutSeconds now
              (markSubagentRunForSteerRestart entry.runId reg)) := by
  have hout : sendOrSteerOnResolved true reg entry message sid idemUuid gw now =
      steerPath reg entry message sid idemUuid gw now := by
    unfold sendOrSteerOnResolved
    rw [if_neg (by simp [hactive]), if_pos rfl]
  constructor
  · intro m hm
    have hsp : steerPath reg entry message sid idemUuid gw now =
        { registry := clearSubagentRunSteerRestart entry.runId
            (markSubagentRunForSteerRestart entry.runId reg),
          ops := [RegOp.markSteer entry.runId, RegOp.clearSteer entry.runId],
          calls := [GatewayCall.agentWait entry.runId steerSettleTimeoutMs,
                    steerLaunchCall entry message sid idemUuid],
          reply := "send failed: " ++ m } := by
      unfold steerPath
      rw [hm]
    rw [hout, hsp]
    refine ⟨rfl, ?_, clear_after_mark entry.runId reg, clear_after_mark_runIds entry.runId reg,
      rfl⟩
    intro prevId nextId hmem
    simp at hmem
  · intro out2 hm hne
    rw [hout]
    unfold steerPath
    rw [hm]
    cases out2 with
    | err m => exact absurd rfl (hne m)
    | okUnit => exact ⟨rfl, rfl⟩
    | okRun rid => exact ⟨rfl, rfl⟩
    | okWait a b => exact ⟨rfl, rfl⟩
    | okHistory msgs => exact ⟨rfl, rfl⟩

/-- Witness for C1: a failing relaunch leaves the single tracked record
unchanged (flag clear, not replaced) and reports the failure. -/
theorem steer_rollback_witness :
    (sendOrSteerOnResolved true [steerWitnessRun] steerWitnessRun "go left" none "u9"
        launchFailGw 500).ops
      = [RegOp.markSteer "rs", RegOp.clearSteer "rs"] ∧
    (sendOrSteerOnResolved true [steerWitnessRun] steerWitnessRun "go left" none "u9"
        launchFailGw 500).registry = [steerWitnessRun] ∧
    (sendOrSteerOnResolved true [steerWitnessRun] steerWitnessRun "go left" none "u9"
        launchFailGw 500).reply = "send failed: gateway closed" ∧
    (sendOrSteerOnResolved true [steerWitnessRun] steerWitnessRun "go right" none "u9"
        launchOkGw 500).ops
      = [RegOp.markSteer "rs", RegOp.replaceAfterSteer "rs" "rn"] := by
  have h := (steer_rollback [steerWitnessRun] steerWitnessRun "go left" none "u9"
    launchFailGw 500 (by decide)).1 "gateway closed" (by decide)
  have h2 := (steer_rollback [steerWitnessRun] steerWitnessRun "go right" none "u9"
    launchOkGw 500 (by decide)).2 (.okRun (some "rn")) (by decide)
    (fun m hm => RpcOutcome.noConfusion hm)
  refine ⟨h.1, ?_, h.2.2.2.2, h2.1⟩
  rw [h.2.2.1]
  decide

end Clawdbot
